import Mathlib

/-
  Verification development for the Kurral trace capture / replay core.

  The Python sources are shallowly embedded: pure functions become Lean
  functions over an inductive JSON value type, Python `None` becomes
  `Option`, Python truthiness is modelled explicitly, machine floats that
  only ever hold small decimal literals are modelled as rationals, and
  code that can raise returns `Except`.  External primitives (SHA-256)
  are taken as parameters, since every property proved here only depends
  on them being functions.
-/

namespace Kurral

/-- JSON-like values as stored in artifact payload fields
(`inputs`, `outputs`, tool-call payloads).  Numbers are restricted to
integers; none of the verified code paths inspects float values. -/
inductive Json where
  | null : Json
  | bool (b : Bool) : Json
  | int (n : Int) : Json
  | str (s : String) : Json
  | arr (items : List Json) : Json
  | obj (fields : List (String × Json)) : Json
deriving Repr

mutual

/-- Structural equality of JSON values, modelling Python `==` on payloads.
Every dictionary comparison in the verified code paths compares values
built with the same construction order, so field order is compared. -/
def Json.beq : Json → Json → Bool
  | .null, .null => true
  | .bool a, .bool b => a == b
  | .int a, .int b => a == b
  | .str a, .str b => a == b
  | .arr a, .arr b => Json.beqList a b
  | .obj a, .obj b => Json.beqFields a b
  | _, _ => false

/-- Pointwise equality of JSON arrays. -/
def Json.beqList : List Json → List Json → Bool
  | [], [] => true
  | a :: as, b :: bs => Json.beq a b && Json.beqList as bs
  | _, _ => false

/-- Pointwise equality of JSON object fields. -/
def Json.beqFields : List (String × Json) → List (String × Json) → Bool
  | [], [] => true
  | a :: as, b :: bs => (a.1 == b.1) && Json.beq a.2 b.2 && Json.beqFields as bs
  | _, _ => false

end

/-- Python truthiness of a JSON-like value (`bool(x)`). -/
def Json.pyTruthy : Json → Bool
  | .null => false
  | .bool b => b
  | .int n => n != 0
  | .str s => s ≠ ""
  | .arr l => !l.isEmpty
  | .obj l => !l.isEmpty

/-- Truthiness of an optional string (`if x:` on `Optional[str]`). -/
def pyStrTruthy : Option String → Bool
  | none => false
  | some s => s ≠ ""

/-- Python `x or y` on optional JSON payloads: a falsy left operand
falls through to the right operand. -/
def pyOrJson : Option Json → Option Json → Option Json
  | some v, b => if v.pyTruthy then some v else b
  | none, b => b

/-- Raw dictionary lookup (`d[k]` on the first matching key). -/
def pyLookup (fields : List (String × Json)) (key : String) : Option Json :=
  match fields.find? (fun kv => kv.1 == key) with
  | some kv => some kv.2
  | none => none

/-- Python `d.get(k)` followed by an `is None` test: both an absent key
and a stored JSON null read back as `None`. -/
def pyGet (fields : List (String × Json)) (key : String) : Option Json :=
  match pyLookup fields key with
  | some .null => none
  | some v => some v
  | none => none

/-- The double-quote character. -/
def dqChar : Char := Char.ofNat 34

/-- The backslash character. -/
def bslashChar : Char := Char.ofNat 92

/-- The opening curly bracket character. -/
def lbraceChar : Char := Char.ofNat 123

/-- The closing curly bracket character. -/
def rbraceChar : Char := Char.ofNat 125

/-- Hexadecimal digit for a value below 16. -/
def hexDigit (n : Nat) : Char :=
  if n < 10 then Char.ofNat (48 + n) else Char.ofNat (87 + (n % 16))

/-- Four-digit hexadecimal rendering used by `\uXXXX` escapes. -/
def hex4 (n : Nat) : List Char :=
  [hexDigit ((n / 4096) % 16), hexDigit ((n / 256) % 16),
   hexDigit ((n / 16) % 16), hexDigit (n % 16)]

/-- Escaping of one character inside a JSON string literal, as done by
`json.dumps` with `ensure_ascii` (its default). -/
def escapeChar (c : Char) : List Char :=
  if c = dqChar then [bslashChar, dqChar]
  else if c = bslashChar then [bslashChar, bslashChar]
  else if c = Char.ofNat 10 then [bslashChar, 'n']
  else if c = Char.ofNat 13 then [bslashChar, 'r']
  else if c = Char.ofNat 9 then [bslashChar, 't']
  else if c = Char.ofNat 8 then [bslashChar, 'b']
  else if c = Char.ofNat 12 then [bslashChar, 'f']
  else if c.toNat < 32 || c.toNat > 126 then [bslashChar, 'u'] ++ hex4 c.toNat
  else [c]

/-- A JSON string literal with surrounding quotes. -/
def quoteStr (s : String) : String :=
  String.mk ([dqChar] ++ (s.toList.map escapeChar).flatten ++ [dqChar])

/-- Stable insertion of a field into a key-sorted field list. -/
def insertField (kv : String × Json) : List (String × Json) → List (String × Json)
  | [] => [kv]
  | kv2 :: rest => if kv.1 ≤ kv2.1 then kv :: kv2 :: rest else kv2 :: insertField kv rest

/-- Object fields sorted by key (`sort_keys=True`; Python compares
strings by code points, and its sort is stable). -/
def sortFields : List (String × Json) → List (String × Json)
  | [] => []
  | kv :: rest => insertField kv (sortFields rest)

mutual

/-- Recursively sort the keys of every object in a value. -/
def Json.sortKeys : Json → Json
  | .null => .null
  | .bool b => .bool b
  | .int n => .int n
  | .str s => .str s
  | .arr l => .arr (Json.sortKeysList l)
  | .obj l => .obj (sortFields (Json.sortKeysFields l))

/-- Key sorting mapped over array items. -/
def Json.sortKeysList : List Json → List Json
  | [] => []
  | x :: xs => x.sortKeys :: Json.sortKeysList xs

/-- Key sorting mapped over object field values. -/
def Json.sortKeysFields : List (String × Json) → List (String × Json)
  | [] => []
  | kv :: rest => (kv.1, kv.2.sortKeys) :: Json.sortKeysFields rest

end

mutual

/-- Serialization of a key-sorted value with the default `json.dumps`
separators (a comma-space between items, a colon-space after keys). -/
def Json.dumpsRaw : Json → String
  | .null => "null"
  | .bool true => "true"
  | .bool false => "false"
  | .int n => toString n
  | .str s => quoteStr s
  | .arr l => "[" ++ dumpsItems l ++ "]"
  | .obj l => String.mk [lbraceChar] ++ dumpsPairs l ++ String.mk [rbraceChar]

/-- Comma-separated serialization of array items. -/
def dumpsItems : List Json → String
  | [] => ""
  | [x] => x.dumpsRaw
  | x :: y :: rest => x.dumpsRaw ++ ", " ++ dumpsItems (y :: rest)

/-- Comma-separated serialization of object fields. -/
def dumpsPairs : List (String × Json) → String
  | [] => ""
  | [kv] => quoteStr kv.1 ++ ": " ++ kv.2.dumpsRaw
  | kv :: kv2 :: rest => quoteStr kv.1 ++ ": " ++ kv.2.dumpsRaw ++ ", " ++ dumpsPairs (kv2 :: rest)

end

/-- `json.dumps(v, sort_keys=True)` with default separators. -/
def Json.dumps (v : Json) : String :=
  v.sortKeys.dumpsRaw

/-- `json.dumps` of a top-level dictionary value. -/
def dumpsObj (fields : List (String × Json)) : String :=
  (Json.obj fields).dumps

/-- Modelled from the spec: the `LLMParameters` pydantic model from the
absent `kurral/models/kurral.py` module — parameters `{temperature,
optional seed, top-p, top-k, max-tokens, frequency-penalty,
presence-penalty}`.  Floats that only hold decimal literals are
rationals here. -/
structure LLMParameters where
  temperature : ℚ
  seed : Option Int
  top_p : Option ℚ
  top_k : Option Int
  max_tokens : Option Int
  frequency_penalty : Option ℚ
  presence_penalty : Option ℚ
deriving Repr, DecidableEq

/-- Modelled from the spec: the `ModelConfig` model from the absent
`kurral/models/kurral.py` — model name, optional model version,
provider, parameters.  An absent model name is the empty string
(the scorer only tests its truthiness). -/
structure ModelConfig where
  model_name : String
  model_version : Option String
  provider : String
  parameters : LLMParameters
deriving Repr, DecidableEq

/-- Modelled from the spec: the `ResolvedPrompt` model from the absent
`kurral/models/kurral.py` — template string, variables map (source field name `variables`, a Lean keyword), final
rendered text. -/
structure ResolvedPrompt where
  template : String
  vars : List (String × Json)
  final_text : String
deriving Repr

/-- Modelled from the spec: tool-call status `∈ {OK, ERROR}`. -/
inductive ToolStatus where
  | OK : ToolStatus
  | ERROR : ToolStatus
deriving Repr, DecidableEq

/-- Modelled from the spec: the `ToolCall` model from the absent
`kurral/models/kurral.py`.  The source reads both an `input`/`output`
and an `inputs`/`outputs` field pair, so both are modelled. -/
structure ToolCall where
  tool_name : String
  input : Option Json
  inputs : Option Json
  output : Option Json
  outputs : Option Json
  effect_type : Option String
  latency_ms : Int
  status : Option ToolStatus
  error : Option String
  error_text : Option String
  summary : Option String
  cache_key : Option String
  output_hash : Option String
  stubbed_in_replay : Bool
deriving Repr

/-- Modelled from the spec: the `TimeEnvironment` model from the absent
`kurral/models/kurral.py` — timestamp, timezone, wall clock, captured
environment variables. -/
structure TimeEnvironment where
  timestamp : Int
  timezone : String
  wall_clock_time : String
  environment_vars : List (String × String)
deriving Repr

/-- Modelled from the spec: replay class `∈ {A, B, C}` (`ReplayLevel` in
the absent `kurral/models/kurral.py`). -/
inductive ReplayLevel where
  | A : ReplayLevel
  | B : ReplayLevel
  | C : ReplayLevel
deriving Repr, DecidableEq

/-- Modelled from the spec: the `DeterminismReport` model from the
absent `kurral/models/kurral.py` — overall score, per-component
breakdown, missing fields and warnings. -/
structure DeterminismReport where
  overall_score : ℚ
  breakdown : List (String × ℚ)
  missing_fields : List String
  warnings : List String
deriving Repr

/-- Modelled from the spec: the `TokenUsage` model from the absent
`kurral/models/kurral.py`. -/
structure TokenUsage where
  prompt_tokens : Int
  completion_tokens : Int
  total_tokens : Int
deriving Repr

/-- Modelled from the spec: the `KurralArtifact` root model from the
absent `kurral/models/kurral.py`, restricted to the fields the verified
code paths read. -/
structure KurralArtifact where
  kurral_id : String
  run_id : String
  tenant_id : String
  semantic_buckets : List String
  environment : String
  schema_version : String
  created_by : Option String
  deterministic : Bool
  replay_level : ReplayLevel
  determinism_report : DeterminismReport
  inputs : List (String × Json)
  outputs : List (String × Json)
  error : Option String
  llm_config : ModelConfig
  resolved_prompt : ResolvedPrompt
  graph_version : Option Json
  tool_calls : List ToolCall
  time_env : Option TimeEnvironment
  duration_ms : Int
  cost_usd : Option ℚ
  token_usage : TokenUsage
  tags : List (String × String)
deriving Repr

/-- Whether the string contains a hyphen (Python `"-" in name`). -/
def containsHyphen (s : String) : Bool :=
  s.toList.contains '-'

/-- `DeterminismScorer.score_model_version` from
`kurral/core/determinism.py`. -/
def scoreModelVersion (config : ModelConfig) : ℚ :=
  if pyStrTruthy config.model_version then 1
  else if config.model_name ≠ "" && containsHyphen config.model_name then 4/5
  else if config.model_name ≠ "" then 3/10
  else 0

/-- `DeterminismScorer.score_random_seed`. -/
def scoreRandomSeed (config : ModelConfig) : ℚ :=
  if config.parameters.seed.isSome then 1 else 0

/-- `DeterminismScorer.score_prompt`. -/
def scorePrompt (prompt : ResolvedPrompt) : ℚ :=
  let s1 : ℚ := if prompt.template ≠ "" then 3/10 else 0
  let s2 : ℚ := if !prompt.vars.isEmpty && prompt.final_text ≠ "" then 2/5 else 0
  let s3 : ℚ := if prompt.final_text ≠ "" then 3/10 else 0
  min (s1 + s2 + s3) 1

/-- Whether a tool call counts as cacheable for the scorer
(`tc.cache_key and not tc.error`). -/
def toolCacheable (tc : ToolCall) : Bool :=
  pyStrTruthy tc.cache_key && !(pyStrTruthy tc.error)

/-- `DeterminismScorer.score_tool_cache`. -/
def scoreToolCache (tool_calls : List ToolCall) : ℚ :=
  if tool_calls.isEmpty then 1
  else (tool_calls.countP toolCacheable : ℚ) / (tool_calls.length : ℚ)

/-- `DeterminismScorer.score_environment`; the generator calls the
scorer with `artifact=None`, which yields the neutral `0.5`. -/
def scoreEnvironment (artifact : Option KurralArtifact) : ℚ :=
  match artifact with
  | none => 1/2
  | some a =>
    let s1 : ℚ := if a.time_env.isSome then 1/2 else 0
    let s2 : ℚ := if a.environment ≠ "" then 3/10 else 0
    let s3 : ℚ :=
      if a.time_env.isSome && !((a.time_env.map TimeEnvironment.environment_vars).getD []).isEmpty
      then 1/5 else 0
    min (s1 + s2 + s3) 1

/-- `DeterminismScorer.score_parameters`. -/
def scoreParameters (config : ModelConfig) : ℚ :=
  let p := config.parameters
  let t : ℚ :=
    if p.temperature = 0 then 1/2
    else if p.temperature < 3/10 then 3/10
    else if p.temperature < 7/10 then 1/10
    else 0
  let tp : ℚ :=
    match p.top_p with
    | none => 3/10
    | some v => if v = 1 then 3/10 else if v > 9/10 then 1/5 else 0
  let pp : ℚ :=
    match p.presence_penalty with
    | none => 1/10
    | some v => if v = 0 then 1/10 else 0
  let fp : ℚ :=
    match p.frequency_penalty with
    | none => 1/10
    | some v => if v = 0 then 1/10 else 0
  min (t + tp + pp + fp) 1

/-- `DeterminismScorer.score`: the weighted overall score and report.
The weights are `model_version 0.25, random_seed 0.20, prompt 0.20,
tool_cache 0.15, environment 0.10, parameters 0.10`. -/
def scorerScore (llm_config : ModelConfig) (prompt : ResolvedPrompt)
    (tool_calls : List ToolCall) (artifact : Option KurralArtifact) : DeterminismReport :=
  let b_mv := scoreModelVersion llm_config
  let b_seed := scoreRandomSeed llm_config
  let b_prompt := scorePrompt prompt
  let b_tool := scoreToolCache tool_calls
  let b_env := scoreEnvironment artifact
  let b_params := scoreParameters llm_config
  let overall := b_mv * (1/4) + b_seed * (1/5) + b_prompt * (1/5)
    + b_tool * (3/20) + b_env * (1/10) + b_params * (1/10)
  let failed_tools := tool_calls.countP (fun tc => pyStrTruthy tc.error)
  { overall_score := overall
    breakdown := [("model_version", b_mv), ("random_seed", b_seed), ("prompt", b_prompt),
                  ("tool_cache", b_tool), ("environment", b_env), ("parameters", b_params)]
    missing_fields :=
      (if b_mv < 4/5 then ["model_version"] else [])
        ++ (if b_seed = 0 then ["random_seed"] else [])
    warnings :=
      (if b_seed = 0 then ["No random seed set - outputs may vary"] else [])
        ++ (if b_params < 1/2 then ["Temperature > 0 reduces determinism"] else [])
        ++ (if b_tool < 1 && failed_tools > 0
            then [toString failed_tools ++ " tool calls failed"] else [])
        ++ (if b_env < 1/2 then ["Environment not fully captured"] else []) }

/-- `DeterminismScorer.assign_replay_level`. -/
def assignReplayLevel (score : ℚ) : ReplayLevel :=
  if score ≥ 9/10 then .A
  else if score ≥ 1/2 then .B
  else .C

/-- `ArtifactGenerator.generate` from `kurral/core/artifact.py`.  The
effectful identifiers (`uuid4()`, `datetime.utcnow()`) are passed in as
`kurral_id` and `now`; the scorer is called with `artifact=None`
exactly as in the source. -/
def generate (kurral_id : String) (now : Int) (run_id tenant_id : String)
    (inputs outputs : List (String × Json)) (llm_config : ModelConfig)
    (resolved_prompt : ResolvedPrompt) (tool_calls : Option (List ToolCall))
    (semantic_buckets : Option (List String)) (environment : String)
    (duration_ms : Int) (cost_usd : Option ℚ) (token_usage : Option TokenUsage)
    (graph_version : Option Json) (error : Option String)
    (tags : Option (List (String × String))) (created_by : Option String)
    (environment_vars : List (String × String)) : KurralArtifact :=
  let time_env : TimeEnvironment :=
    { timestamp := now, timezone := "UTC", wall_clock_time := "", environment_vars }
  let tool_calls_list :=
    match tool_calls with
    | some l => if l.isEmpty then [] else l
    | none => []
  let determinism_report := scorerScore llm_config resolved_prompt tool_calls_list none
  let replay_level := assignReplayLevel determinism_report.overall_score
  let deterministic : Bool := determinism_report.overall_score ≥ 9/10
  { kurral_id, run_id, tenant_id
    semantic_buckets := (semantic_buckets.getD [])
    environment
    schema_version := "1.0.0"
    created_by
    deterministic
    replay_level
    determinism_report
    inputs, outputs, error, llm_config, resolved_prompt, graph_version
    tool_calls := tool_calls_list
    time_env := some time_env
    duration_ms, cost_usd
    token_usage := token_usage.getD { prompt_tokens := 0, completion_tokens := 0, total_tokens := 0 }
    tags := tags.getD [] }

/-- Whether the model name ends in a hyphenated numeric tail, following
the spec's words for the `0.8` tier of the `model_version` component
(claim C4); this is the spec-side reading, not the source condition. -/
def hasHyphenatedNumericTail (s : String) : Bool :=
  let cs := s.toList
  cs.contains '-' &&
    (let tail := (cs.reverse.takeWhile (fun c => c ≠ '-')).reverse
     !tail.isEmpty && tail.all Char.isDigit)

/-- The `model_version` component exactly as claim C4 words it: `1.0`
for an explicit version, `0.8` for a hyphenated numeric tail, `0.3` for
a bare family name, `0` without a name. -/
def claimedModelVersionScore (config : ModelConfig) : ℚ :=
  if pyStrTruthy config.model_version then 1
  else if config.model_name ≠ "" && hasHyphenatedNumericTail config.model_name then 4/5
  else if config.model_name ≠ "" then 3/10
  else 0

/-- The `model_version` component as the source computes it, with the
`0.8` tier triggered by any hyphen in the model name. -/
def amendedModelVersionScore (config : ModelConfig) : ℚ :=
  if pyStrTruthy config.model_version then 1
  else if config.model_name ≠ "" && decide ('-' ∈ config.model_name.toList) then 4/5
  else if config.model_name ≠ "" then 3/10
  else 0

theorem scoreModelVersion_nonneg (config : ModelConfig) :
    0 ≤ scoreModelVersion config := by
  unfold scoreModelVersion; split_ifs <;> norm_num

theorem scoreModelVersion_le_one (config : ModelConfig) :
    scoreModelVersion config ≤ 1 := by
  unfold scoreModelVersion; split_ifs <;> norm_num

theorem scoreRandomSeed_nonneg (config : ModelConfig) :
    0 ≤ scoreRandomSeed config := by
  unfold scoreRandomSeed; split_ifs <;> norm_num

theorem scoreRandomSeed_le_one (config : ModelConfig) :
    scoreRandomSeed config ≤ 1 := by
  unfold scoreRandomSeed; split_ifs <;> norm_num

theorem scorePrompt_nonneg (prompt : ResolvedPrompt) :
    0 ≤ scorePrompt prompt := by
  unfold scorePrompt; split_ifs <;> norm_num

theorem scorePrompt_le_one (prompt : ResolvedPrompt) :
    scorePrompt prompt ≤ 1 := by
  unfold scorePrompt; split_ifs <;> norm_num

theorem scoreToolCache_nonneg (tool_calls : List ToolCall) :
    0 ≤ scoreToolCache tool_calls := by
  unfold scoreToolCache
  split_ifs with h
  · norm_num
  · positivity

theorem scoreToolCache_le_one (tool_calls : List ToolCall) :
    scoreToolCache tool_calls ≤ 1 := by
  unfold scoreToolCache
  split_ifs with h
  · norm_num
  · have hlen : 0 < tool_calls.length := by
      cases tool_calls with
      | nil => simp at h
      | cons x xs => simp
    have hc : tool_calls.countP toolCacheable ≤ tool_calls.length :=
      List.countP_le_length _
    rw [div_le_one (by exact_mod_cast hlen)]
    exact_mod_cast hc

theorem scoreEnvironment_nonneg (artifact : Option KurralArtifact) :
    0 ≤ scoreEnvironment artifact := by
  rcases artifact with _ | a <;> simp only [scoreEnvironment]
  · norm_num
  · refine le_min ?_ (by norm_num)
    split_ifs <;> norm_num

theorem scoreEnvironment_le_one (artifact : Option KurralArtifact) :
    scoreEnvironment artifact ≤ 1 := by
  rcases artifact with _ | a <;> simp only [scoreEnvironment]
  · norm_num
  · exact min_le_right _ _

theorem scoreParameters_nonneg (config : ModelConfig) :
    0 ≤ scoreParameters config := by
  obtain ⟨_, _, _, t, seed, tp, tk, mt, fp, pp⟩ := config
  simp only [scoreParameters]
  refine le_min ?_ (by norm_num)
  rcases tp with _ | v <;> rcases pp with _ | w <;> rcases fp with _ | u <;>
    simp only [] <;> split_ifs <;> norm_num

theorem scoreParameters_le_one (config : ModelConfig) :
    scoreParameters config ≤ 1 := by
  obtain ⟨_, _, _, t, seed, tp, tk, mt, fp, pp⟩ := config
  simp only [scoreParameters]
  exact min_le_right _ _

theorem assignReplayLevel_spec (s : ℚ) :
    (assignReplayLevel s = .A ↔ 9/10 ≤ s) ∧
    (assignReplayLevel s = .B ↔ 1/2 ≤ s ∧ s < 9/10) ∧
    (assignReplayLevel s = .C ↔ s < 1/2) := by
  unfold assignReplayLevel
  split_ifs with h1 h2
  · refine ⟨⟨fun _ => h1, fun _ => rfl⟩, ⟨?_, ?_⟩, ⟨?_, ?_⟩⟩
    · intro hh; exact absurd hh (by decide)
    · rintro ⟨-, hlt⟩; exact absurd h1 (not_le.mpr hlt)
    · intro hh; exact absurd hh (by decide)
    · intro hlt; exfalso; linarith
  · refine ⟨⟨?_, ?_⟩, ⟨fun _ => ⟨h2, lt_of_not_ge h1⟩, fun _ => rfl⟩, ⟨?_, ?_⟩⟩
    · intro hh; exact absurd hh (by decide)
    · intro hge; exact absurd hge h1
    · intro hh; exact absurd hh (by decide)
    · intro hlt; exact absurd h2 (not_le.mpr hlt)
  · refine ⟨⟨?_, ?_⟩, ⟨?_, ?_⟩, ⟨fun _ => lt_of_not_ge h2, fun _ => rfl⟩⟩
    · intro hh; exact absurd hh (by decide)
    · intro hge; exact absurd hge h1
    · intro hh; exact absurd hh (by decide)
    · rintro ⟨hge, -⟩; exact absurd hge h2

/-- Claim C3: for every model config, resolved prompt, tool-call list
and optional artifact, the overall determinism score lies in `[0, 1]`,
and the replay class assigned from that score is `A` iff
`score ≥ 0.90`, `B` iff `0.50 ≤ score < 0.90`, and `C` iff
`score < 0.50`. -/
theorem determinism_score_in_unit_interval_and_class_thresholds
    (llm_config : ModelConfig) (prompt : ResolvedPrompt)
    (tool_calls : List ToolCall) (artifact : Option KurralArtifact) :
    0 ≤ (scorerScore llm_config prompt tool_calls artifact).overall_score ∧
    (scorerScore llm_config prompt tool_calls artifact).overall_score ≤ 1 ∧
    (∀ s : ℚ,
      (assignReplayLevel s = .A ↔ s ≥ 9/10) ∧
      (assignReplayLevel s = .B ↔ 1/2 ≤ s ∧ s < 9/10) ∧
      (assignReplayLevel s = .C ↔ s < 1/2)) := by
  have h1l := scoreModelVersion_nonneg llm_config
  have h1u := scoreModelVersion_le_one llm_config
  have h2l := scoreRandomSeed_nonneg llm_config
  have h2u := scoreRandomSeed_le_one llm_config
  have h3l := scorePrompt_nonneg prompt
  have h3u := scorePrompt_le_one prompt
  have h4l := scoreToolCache_nonneg tool_calls
  have h4u := scoreToolCache_le_one tool_calls
  have h5l := scoreEnvironment_nonneg artifact
  have h5u := scoreEnvironment_le_one artifact
  have h6l := scoreParameters_nonneg llm_config
  have h6u := scoreParameters_le_one llm_config
  refine ⟨?_, ?_, fun s => assignReplayLevel_spec s⟩ <;>
    · simp only [scorerScore]
      linarith

/-- A model config whose name has a hyphen but no numeric tail. -/
def cfgLlamaChat : ModelConfig :=
  { model_name := "llama-chat", model_version := none, provider := "meta",
    parameters := { temperature := 0, seed := none, top_p := none, top_k := none,
                    max_tokens := none, frequency_penalty := none,
                    presence_penalty := none } }

/-- Counterexample to claim C4 as stated: on the model name
`"llama-chat"` — a hyphen but no numeric tail, hence per the claim a
generic family name worth `0.3` — the source awards the `0.8` tier,
because it only tests for the presence of a hyphen. -/
theorem score_model_version_counterexample :
    ¬ ∀ config : ModelConfig, scoreModelVersion config = claimedModelVersionScore config := by
  intro h
  have hx := h cfgLlamaChat
  rw [show scoreModelVersion cfgLlamaChat = 4/5 from rfl,
      show claimedModelVersionScore cfgLlamaChat = 3/10 from rfl] at hx
  norm_num at hx

/-- Claim C4 (amended): the `model_version` component is `1.0` when a
non-empty explicit model version is present, `0.8` when the model name
contains a hyphen, `0.3` when a model name without any hyphen is
present, and `0` when no model name is present. -/
theorem score_model_version_amended (config : ModelConfig) :
    scoreModelVersion config = amendedModelVersionScore config := by
  have hc : containsHyphen config.model_name = decide ('-' ∈ config.model_name.toList) := by
    by_cases hm : '-' ∈ config.model_name.toList <;> simp [containsHyphen, hm]
  unfold scoreModelVersion amendedModelVersionScore
  rw [hc]

/-- Claim C10: every artifact the generator produces has its
`deterministic` flag equal to `overall_score ≥ 0.90`, hence the flag is
`true` exactly when the assigned replay level is `A`. -/
theorem generate_deterministic_iff_level_A
    (kurral_id : String) (now : Int) (run_id tenant_id : String)
    (inputs outputs : List (String × Json)) (llm_config : ModelConfig)
    (resolved_prompt : ResolvedPrompt) (tool_calls : Option (List ToolCall))
    (semantic_buckets : Option (List String)) (environment : String)
    (duration_ms : Int) (cost_usd : Option ℚ) (token_usage : Option TokenUsage)
    (graph_version : Option Json) (error : Option String)
    (tags : Option (List (String × String))) (created_by : Option String)
    (environment_vars : List (String × String)) (a : KurralArtifact)
    (ha : a = generate kurral_id now run_id tenant_id inputs outputs llm_config
      resolved_prompt tool_calls semantic_buckets environment duration_ms cost_usd
      token_usage graph_version error tags created_by environment_vars) :
    (a.deterministic = true ↔ a.determinism_report.overall_score ≥ 9/10) ∧
    (a.deterministic = true ↔ a.replay_level = ReplayLevel.A) := by
  subst ha
  simp only [generate]
  refine ⟨decide_eq_true_iff, ?_⟩
  rw [decide_eq_true_iff]
  exact ((assignReplayLevel_spec _).1).symm

/-- Closed witness for C10 at a concrete generator call. -/
theorem generate_deterministic_iff_level_A_witness :
    ((generate "id0" 0 "run0" "tenant0" [] []
        { model_name := "gpt-4-0613", model_version := some "0613", provider := "openai",
          parameters := { temperature := 0, seed := some 42, top_p := none, top_k := none,
                          max_tokens := none, frequency_penalty := none,
                          presence_penalty := none } }
        { template := "t", vars := [("q", Json.str "hello")], final_text := "t" }
        none none "production" 0 none none none none none none []).deterministic = true ↔
      (generate "id0" 0 "run0" "tenant0" [] []
        { model_name := "gpt-4-0613", model_version := some "0613", provider := "openai",
          parameters := { temperature := 0, seed := some 42, top_p := none, top_k := none,
                          max_tokens := none, frequency_penalty := none,
                          presence_penalty := none } }
        { template := "t", vars := [("q", Json.str "hello")], final_text := "t" }
        none none "production" 0 none none none none none none []).determinism_report.overall_score ≥ 9/10) ∧
    ((generate "id0" 0 "run0" "tenant0" [] []
        { model_name := "gpt-4-0613", model_version := some "0613", provider := "openai",
          parameters := { temperature := 0, seed := some 42, top_p := none, top_k := none,
                          max_tokens := none, frequency_penalty := none,
                          presence_penalty := none } }
        { template := "t", vars := [("q", Json.str "hello")], final_text := "t" }
        none none "production" 0 none none none none none none []).deterministic = true ↔
      (generate "id0" 0 "run0" "tenant0" [] []
        { model_name := "gpt-4-0613", model_version := some "0613", provider := "openai",
          parameters := { temperature := 0, seed := some 42, top_p := none, top_k := none,
                          max_tokens := none, frequency_penalty := none,
                          presence_penalty := none } }
        { template := "t", vars := [("q", Json.str "hello")], final_text := "t" }
        none none "production" 0 none none none none none none []).replay_level = ReplayLevel.A) :=
  generate_deterministic_iff_level_A "id0" 0 "run0" "tenant0" [] [] _ _
    none none "production" 0 none none none none none none [] _ rfl

/-- Python dictionary assignment `d[k] = v`: an existing key keeps its
position and gets the new value, a new key is appended. -/
def dictSet {α : Type} : List (String × α) → String → α → List (String × α)
  | [], k, v => [(k, v)]
  | (k2, v2) :: rest, k, v =>
    if k2 = k then (k, v) :: rest else (k2, v2) :: dictSet rest k v

/-- Python dictionary read returning `None` for a missing key. -/
def dictGet {α : Type} (m : List (String × α)) (k : String) : Option α :=
  (m.find? (fun kv => kv.1 == k)).map (fun kv => kv.2)

/-- Python `del d[k]` / `d.pop(k)`: dictionary keys are unique, so
dropping every binding of `k` removes exactly the one entry. -/
def dictDel {α : Type} (m : List (String × α)) (k : String) : List (String × α) :=
  m.filter (fun kv => kv.1 ≠ k)

theorem dictGet_dictSet_self {α : Type} (m : List (String × α)) (k : String) (v : α) :
    dictGet (dictSet m k v) k = some v := by
  induction m with
  | nil => simp [dictSet, dictGet]
  | cons kv rest ih =>
    by_cases h : kv.1 = k
    · simp [dictSet, dictGet, h]
    · simp only [dictSet, dictGet] at ih ⊢
      rw [if_neg h, List.find?_cons_of_neg _ (by simpa using h)]
      exact ih

theorem dictGet_dictDel_self {α : Type} (m : List (String × α)) (k : String) :
    dictGet (dictDel m k) k = none := by
  induction m with
  | nil => simp [dictDel, dictGet]
  | cons kv rest ih =>
    by_cases h : kv.1 = k
    · simp [dictDel, dictGet, h]
    · simp only [dictDel, dictGet] at ih ⊢
      rw [List.filter_cons_of_pos (by simpa using h),
        List.find?_cons_of_neg _ (by simpa using h)]
      exact ih

/-- The `ttl_seconds: int = 3600` default of both cache backends in
`kurral/storage/cache.py`. -/
def memoryCacheDefaultTTL : Int := 3600

/-- `MemoryCache` from `kurral/storage/cache.py`: key to
`(response, expires_at)`, with wall-clock reads passed in as `now`. -/
structure MemoryCache where
  ttl_seconds : Int
  cache : List (String × (Json × Int))

/-- `MemoryCache.prime`: store under the key with `expires_at` equal to
`now + ttl_seconds`, overwriting any present entry. -/
def MemoryCache.prime (c : MemoryCache) (now : Int) (key : String) (response : Json) :
    MemoryCache :=
  { c with cache := dictSet c.cache key (response, now + c.ttl_seconds) }

/-- `MemoryCache.get`: a missing key answers `None`; an entry with
`expires_at < now` is deleted and answers `None`; otherwise the stored
response is returned. -/
def MemoryCache.get (c : MemoryCache) (now : Int) (key : String) :
    Option Json × MemoryCache :=
  match dictGet c.cache key with
  | none => (none, c)
  | some (response, expires_at) =>
    if expires_at < now then (none, { c with cache := dictDel c.cache key })
    else (some response, c)

/-- `MemoryCache.evict`: `self.cache.pop(cache_key, None)`. -/
def MemoryCache.evict (c : MemoryCache) (key : String) : MemoryCache :=
  { c with cache := dictDel c.cache key }

/-- Claim C6: a `get` on a missing key or on an entry whose TTL
(default 3600 s) has expired returns absence rather than an error, the
read that observes an expired entry removes it, and `prime` on a key
already present overwrites the stored payload. -/
theorem memory_cache_absence_expiry_overwrite
    (c : MemoryCache) (now : Int) (key : String) (payload : Json) :
    (dictGet c.cache key = none → MemoryCache.get c now key = (none, c)) ∧
    (∀ resp exp, dictGet c.cache key = some (resp, exp) → exp < now →
      (MemoryCache.get c now key).1 = none ∧
      dictGet (MemoryCache.get c now key).2.cache key = none) ∧
    (∀ old, dictGet c.cache key = some old →
      dictGet (MemoryCache.prime c now key payload).cache key
        = some (payload, now + c.ttl_seconds)) ∧
    memoryCacheDefaultTTL = 3600 := by
  refine ⟨?_, ?_, ?_, rfl⟩
  · intro h
    simp [MemoryCache.get, h]
  · intro resp exp h hexp
    simp [MemoryCache.get, h, hexp, dictGet_dictDel_self]
  · intro old _
    simp [MemoryCache.prime, dictGet_dictSet_self]

/-- Closed witness for C6: one expired read and one overwriting prime. -/
theorem memory_cache_absence_expiry_overwrite_witness :
    ((MemoryCache.get ⟨3600, [("k", (Json.str "v", 5))]⟩ 10 "k").1 = none ∧
      dictGet (MemoryCache.get ⟨3600, [("k", (Json.str "v", 5))]⟩ 10 "k").2.cache "k" = none) ∧
    dictGet (MemoryCache.prime ⟨3600, [("k", (Json.str "v", 5))]⟩ 10 "k" (Json.str "w")).cache "k"
      = some (Json.str "w", 10 + 3600) := by
  refine ⟨(memory_cache_absence_expiry_overwrite ⟨3600, [("k", (Json.str "v", 5))]⟩
      10 "k" (Json.str "w")).2.1 (Json.str "v") 5 rfl (by norm_num),
    (memory_cache_absence_expiry_overwrite ⟨3600, [("k", (Json.str "v", 5))]⟩
      10 "k" (Json.str "w")).2.2.1 (Json.str "v", 5) rfl⟩

/-- Values the patched process-wide globals can hold in
`Kurral_tester/write_side_effect_interceptor.py`: the saved library
functions and the interceptor's stubs. -/
inductive PatchFn where
  | originalSMTPSSL : PatchFn
  | originalSMTP : PatchFn
  | originalOpen : PatchFn
  | originalEnvironSet : PatchFn
  | stubSMTP : PatchFn
  | stubOpen : PatchFn
  | stubEnvironSet : PatchFn
deriving Repr, DecidableEq

/-- The process-wide globals the interceptor monkey-patches. -/
structure PyGlobals where
  smtplib_SMTP_SSL : PatchFn
  smtplib_SMTP : PatchFn
  builtins_open_fn : PatchFn
  os_environ_setitem : PatchFn
deriving Repr, DecidableEq

/-- The interceptor instance state: saved originals and the active
flag. -/
structure WriteSideEffectInterceptor where
  original_smtp_ssl : Option PatchFn
  original_smtp : Option PatchFn
  original_open_fn : Option PatchFn
  original_environ_setitem : Option PatchFn
  active : Bool
deriving Repr, DecidableEq

/-- A fresh interceptor (`__init__`). -/
def freshInterceptor : WriteSideEffectInterceptor :=
  { original_smtp_ssl := none, original_smtp := none, original_open_fn := none,
    original_environ_setitem := none, active := false }

/-- The globals before any patching. -/
def initialGlobals : PyGlobals :=
  { smtplib_SMTP_SSL := .originalSMTPSSL, smtplib_SMTP := .originalSMTP,
    builtins_open_fn := .originalOpen, os_environ_setitem := .originalEnvironSet }

/-- `WriteSideEffectInterceptor.activate`: save the current globals and
install the stubs (`smtplib.SMTP` only when `getattr` found one). -/
def interceptorActivate (g : PyGlobals) (i : WriteSideEffectInterceptor) :
    PyGlobals × WriteSideEffectInterceptor :=
  if i.active then (g, i)
  else
    let i2 : WriteSideEffectInterceptor :=
      { original_smtp_ssl := some g.smtplib_SMTP_SSL,
        original_smtp := some g.smtplib_SMTP,
        original_open_fn := some g.builtins_open_fn,
        original_environ_setitem := some g.os_environ_setitem,
        active := true }
    let g2 : PyGlobals :=
      { smtplib_SMTP_SSL := .stubSMTP,
        smtplib_SMTP := if i2.original_smtp.isSome then .stubSMTP else g.smtplib_SMTP,
        builtins_open_fn := .stubOpen,
        os_environ_setitem := .stubEnvironSet }
    (g2, i2)

/-- `WriteSideEffectInterceptor.deactivate`: restore the saved
functions.  The source line for the environment setter assigns
`self._stub_environ_setitem` — the stub, not the saved original — which
this embedding reproduces verbatim. -/
def interceptorDeactivate (g : PyGlobals) (i : WriteSideEffectInterceptor) :
    PyGlobals × WriteSideEffectInterceptor :=
  if !i.active then (g, i)
  else
    let g2 : PyGlobals :=
      { smtplib_SMTP_SSL := match i.original_smtp_ssl with | some f => f | none => g.smtplib_SMTP_SSL,
        smtplib_SMTP := match i.original_smtp with | some f => f | none => g.smtplib_SMTP,
        builtins_open_fn := match i.original_open_fn with | some f => f | none => g.builtins_open_fn,
        os_environ_setitem :=
          if i.original_environ_setitem.isSome then .stubEnvironSet
          else g.os_environ_setitem }
    (g2, { i with active := false })

/-- `WriteSideEffectInterceptor.intercept`: `activate` in a `try`, then
`deactivate` in the `finally`, so both the normal and the exception
exit path run `deactivate`. -/
def interceptScope (g : PyGlobals) (i : WriteSideEffectInterceptor) :
    PyGlobals × WriteSideEffectInterceptor :=
  let s1 := interceptorActivate g i
  interceptorDeactivate s1.1 s1.2

/-- External effects observable outside the process. -/
structure World where
  env : List (String × String)
  files : List (String × String)
  emails_sent : Nat
deriving Repr, DecidableEq

/-- Calling the currently-installed SMTP class and `send_message`: the
stub's `MockSMTP.send_message` only logs and returns `{}`. -/
def smtpSendMessage : PatchFn → World → World
  | .stubSMTP, w => w
  | _, w => { w with emails_sent := w.emails_sent + 1 }

/-- Calling the currently-installed `open(path, "w")` and writing: the
stub's `MockFile.write` is a no-op. -/
def openWriteFile : PatchFn → World → String → String → World
  | .stubOpen, w, _, _ => w
  | _, w, path, content => { w with files := dictSet w.files path content }

/-- Calling the currently-installed `os.environ.__setitem__`: the stub
logs and does not set. -/
def environSetItem : PatchFn → World → String → String → World
  | .stubEnvironSet, w, _, _ => w
  | _, w, k, v => { w with env := dictSet w.env k v }

/-- Claim C2, evaluated at its failing input (a fresh interceptor, one
`activate`/`deactivate` cycle): while active all three patched writes
leave the world untouched, and `deactivate` does restore the SMTP
classes and `open` — but it reinstalls the environment-setter stub
instead of the saved original, so the third function is never
restored. -/
theorem interceptor_deactivate_leaves_env_stub :
    (∀ w : World,
      smtpSendMessage (interceptorActivate initialGlobals freshInterceptor).1.smtplib_SMTP_SSL w = w ∧
      openWriteFile (interceptorActivate initialGlobals freshInterceptor).1.builtins_open_fn w "f.txt" "data" = w ∧
      environSetItem (interceptorActivate initialGlobals freshInterceptor).1.os_environ_setitem w "K" "V" = w) ∧
    (interceptScope initialGlobals freshInterceptor).1.smtplib_SMTP_SSL = PatchFn.originalSMTPSSL ∧
    (interceptScope initialGlobals freshInterceptor).1.smtplib_SMTP = PatchFn.originalSMTP ∧
    (interceptScope initialGlobals freshInterceptor).1.builtins_open_fn = PatchFn.originalOpen ∧
    (interceptScope initialGlobals freshInterceptor).1.os_environ_setitem = PatchFn.stubEnvironSet ∧
    PatchFn.stubEnvironSet ≠ PatchFn.originalEnvironSet := by
  refine ⟨fun w => ⟨rfl, rfl, rfl⟩, rfl, rfl, rfl, rfl, by decide⟩

mutual

/-- `_sanitize_for_serialization` from `kurral/core/decorator.py`,
restricted to JSON-representable inputs: a value deeper than
`max_depth` becomes the placeholder string, dictionaries drop the
`callbacks`/`callback_manager` keys, and JSON leaves (always
serializable) pass through. -/
def sanitizeJson (maxDepth : Nat) : Nat → Json → Json
  | d, v =>
    if d > maxDepth then .str "<max_depth_reached>"
    else
      match v with
      | .null => .null
      | .bool b => .bool b
      | .int n => .int n
      | .str s => .str s
      | .arr l => .arr (sanitizeItems maxDepth (d + 1) l)
      | .obj l => .obj (sanitizeFields maxDepth (d + 1) l)

/-- The sanitizer mapped over list items. -/
def sanitizeItems (maxDepth : Nat) : Nat → List Json → List Json
  | _, [] => []
  | d, x :: xs => sanitizeJson maxDepth d x :: sanitizeItems maxDepth d xs

/-- The sanitizer mapped over dictionary entries, dropping callback
keys. -/
def sanitizeFields (maxDepth : Nat) : Nat → List (String × Json) → List (String × Json)
  | _, [] => []
  | d, kv :: rest =>
    if kv.1 = "callbacks" ∨ kv.1 = "callback_manager" then sanitizeFields maxDepth d rest
    else (kv.1, sanitizeJson maxDepth d kv.2) :: sanitizeFields maxDepth d rest

end

/-- Sanitizing the bound-arguments dictionary (`context.inputs`). -/
def sanitizeInputs (l : List (String × Json)) : List (String × Json) :=
  sanitizeFields 3 1 l

/-- The fallback model config built inside
`_generate_and_export_artifact` when the context captured none. -/
def defaultLLMConfig : ModelConfig :=
  { model_name := "unknown", model_version := none, provider := "unknown",
    parameters := { temperature := 7/10, seed := none, top_p := none, top_k := none,
                    max_tokens := none, frequency_penalty := none,
                    presence_penalty := none } }

/-- The fallback prompt built inside `_generate_and_export_artifact`. -/
def defaultPrompt : ResolvedPrompt :=
  { template := "", vars := [], final_text := "" }

/-- `_generate_and_export_artifact` from `kurral/core/decorator.py`:
fill defaults for a missing config or prompt, build the semantic
buckets from the optional bucket plus the function name, and call
`ArtifactGenerator.generate` with `error` taken from the context. -/
def generateAndExportArtifact (function_name kurral_id : String) (now start_ts : Int)
    (tenant_id : String) (semantic_bucket : Option String) (environment : String)
    (llm_config : Option ModelConfig) (prompt : Option ResolvedPrompt)
    (tool_calls : List ToolCall) (inputs outputs : List (String × Json))
    (error : Option String) (duration_ms : Int) (graph_version : Option Json)
    (token_usage : Option TokenUsage) : KurralArtifact :=
  generate kurral_id now
    ("local_" ++ function_name ++ "_" ++ toString start_ts) tenant_id inputs outputs
    (llm_config.getD defaultLLMConfig) (prompt.getD defaultPrompt) (some tool_calls)
    (some ((if pyStrTruthy semantic_bucket then [semantic_bucket.getD ""] else [])
      ++ [function_name]))
    environment duration_ms none token_usage graph_version error none
    (some ("decorator:" ++ function_name)) []

/-- The synchronous `wrapper` of `trace_llm`, as a function from the
agent's outcome to the returned-or-raised outcome plus the exported
artifacts.  Reflection helpers (`_extract_model_config_from_result`,
`_extract_prompt_from_args`) are passed in as the values they return,
and wall-clock reads as integers. -/
def syncWrapper (E : Type) (toStr : E → String)
    (config_from_result : ModelConfig) (prompt_extracted : ResolvedPrompt)
    (auto_export : Bool) (function_name kurral_id : String) (now start_ts duration_ms : Int)
    (tenant_id : String) (semantic_bucket : Option String) (environment : String)
    (inputs_raw : List (String × Json)) (captured_tool_calls : List ToolCall)
    (agent : Except E Json) : Except E Json × List KurralArtifact :=
  let inputs := sanitizeInputs inputs_raw
  match agent with
  | .ok result =>
    let outputs := [("result", sanitizeJson 3 0 result)]
    let artifacts :=
      if auto_export then
        [generateAndExportArtifact function_name kurral_id now start_ts tenant_id
          semantic_bucket environment (some config_from_result) (some prompt_extracted)
          captured_tool_calls inputs outputs none duration_ms none none]
      else []
    (.ok result, artifacts)
  | .error e =>
    let artifacts :=
      if auto_export then
        [generateAndExportArtifact function_name kurral_id now start_ts tenant_id
          semantic_bucket environment none none
          captured_tool_calls inputs [] (some (toStr e)) duration_ms none none]
      else []
    (.error e, artifacts)

/-- The asynchronous `async_wrapper` of `trace_llm`; its control flow
is identical to the synchronous wrapper after awaiting the agent. -/
def asyncWrapper (E : Type) (toStr : E → String)
    (config_from_result : ModelConfig) (prompt_extracted : ResolvedPrompt)
    (auto_export : Bool) (function_name kurral_id : String) (now start_ts duration_ms : Int)
    (tenant_id : String) (semantic_bucket : Option String) (environment : String)
    (inputs_raw : List (String × Json)) (captured_tool_calls : List ToolCall)
    (agent : Except E Json) : Except E Json × List KurralArtifact :=
  let inputs := sanitizeInputs inputs_raw
  match agent with
  | .ok result =>
    let outputs := [("result", sanitizeJson 3 0 result)]
    let artifacts :=
      if auto_export then
        [generateAndExportArtifact function_name kurral_id now start_ts tenant_id
          semantic_bucket environment (some config_from_result) (some prompt_extracted)
          captured_tool_calls inputs outputs none duration_ms none none]
      else []
    (.ok result, artifacts)
  | .error e =>
    let artifacts :=
      if auto_export then
        [generateAndExportArtifact function_name kurral_id now start_ts tenant_id
          semantic_bucket environment none none
          captured_tool_calls inputs [] (some (toStr e)) duration_ms none none]
      else []
    (.error e, artifacts)

/-- One `stream_map` entry recorded by the async-generator wrapper. -/
def streamEntry (s : String) (offset idx : Nat) (ts : Int) : Json :=
  .obj [("fragment", .str s), ("offset", .int offset), ("length", .int s.length),
        ("index", .int idx), ("timestamp_ms", .int ts)]

/-- The `stream_map` accumulated while the async generator yields:
string fragments get running offsets; the per-item index counts every
yielded item; timestamps come from the wall clock (`frag_ts`). -/
def buildStreamMap (frag_ts : Nat → Int) : List Json → Nat → Nat → List Json
  | [], _, _ => []
  | item :: rest, idx, offset =>
    match item with
    | .str s => streamEntry s offset idx (frag_ts idx)
        :: buildStreamMap frag_ts rest (idx + 1) (offset + s.length)
    | _ => buildStreamMap frag_ts rest (idx + 1) offset

/-- The `context.outputs` dictionary the async-generator wrapper builds
in its `finally` block.  The `stream_metadata` key, whose value is
floating-point statistics derived from the stream map, is not
modelled. -/
def asyncGenOutputs (E : Type) (toStr : E → String) (frag_ts : Nat → Int)
    (items : List Json) (genErr : Option E) : List (String × Json) :=
  let total := items.length
  let sanitized := (items.take 100).map (sanitizeJson 3 0)
  let allStr := items.all (fun i => match i with | .str _ => true | _ => false)
  let full_output :=
    if !items.isEmpty && allStr then
      String.join (items.map (fun i => match i with | .str s => s | _ => ""))
    else ""
  let sm := buildStreamMap frag_ts items 0 0
  let base := [("items", Json.arr sanitized), ("total_items", Json.int total),
    ("truncated", Json.bool (decide (total > 100))),
    ("full_text", if full_output ≠ "" then Json.str full_output else Json.null)]
  let withSm := if !sm.isEmpty then base ++ [("stream_map", Json.arr (sm.take 100))] else base
  match genErr with
  | some e => withSm ++ [("error", Json.str (toStr e))]
  | none => withSm

/-- The `async_gen_wrapper` of `trace_llm`: the agent's run is the list
of items it yielded plus the exception it raised, if any; the `finally`
block always builds the outputs and (under `auto_export`) generates the
artifact before re-raising the captured exception.
`config_from_none` is `_extract_model_config_from_result(None)`, used
because JSON-representable yields carry no `response_metadata`. -/
def asyncGenWrapper (E : Type) (toStr : E → String) (frag_ts : Nat → Int)
    (config_from_none : ModelConfig) (prompt_extracted : ResolvedPrompt)
    (auto_export : Bool) (function_name kurral_id : String) (now start_ts duration_ms : Int)
    (tenant_id : String) (semantic_bucket : Option String) (environment : String)
    (inputs_raw : List (String × Json)) (captured_tool_calls : List ToolCall)
    (graph_version : Option Json)
    (items : List Json) (genErr : Option E) :
    (List Json × Option E) × List KurralArtifact :=
  let inputs := sanitizeInputs inputs_raw
  let outputs := asyncGenOutputs E toStr frag_ts items genErr
  let artifacts :=
    if auto_export then
      [generateAndExportArtifact function_name kurral_id now start_ts tenant_id
        semantic_bucket environment (some config_from_none) (some prompt_extracted)
        captured_tool_calls inputs outputs (genErr.map toStr) duration_ms graph_version none]
    else []
  ((items, genErr), artifacts)

/-- Claim C9: when the wrapped agent raises, each of the three wrappers
re-raises the same exception, and the artifact generated and exported
before the re-raise carries `error = str(exc)` (with export enabled, as
it is by default). -/
theorem capture_reraises_and_persists_error
    (E : Type) (toStr : E → String) (e : E)
    (config_from_result config_from_none : ModelConfig) (prompt_extracted : ResolvedPrompt)
    (frag_ts : Nat → Int) (function_name kurral_id : String)
    (now start_ts duration_ms : Int) (tenant_id : String)
    (semantic_bucket : Option String) (environment : String)
    (inputs_raw : List (String × Json)) (captured_tool_calls : List ToolCall)
    (graph_version : Option Json) (items : List Json) :
    ((syncWrapper E toStr config_from_result prompt_extracted true function_name kurral_id
        now start_ts duration_ms tenant_id semantic_bucket environment inputs_raw
        captured_tool_calls (Except.error e)).1 = Except.error e ∧
      (syncWrapper E toStr config_from_result prompt_extracted true function_name kurral_id
        now start_ts duration_ms tenant_id semantic_bucket environment inputs_raw
        captured_tool_calls (Except.error e)).2.map KurralArtifact.error
        = [some (toStr e)]) ∧
    ((asyncWrapper E toStr config_from_result prompt_extracted true function_name kurral_id
        now start_ts duration_ms tenant_id semantic_bucket environment inputs_raw
        captured_tool_calls (Except.error e)).1 = Except.error e ∧
      (asyncWrapper E toStr config_from_result prompt_extracted true function_name kurral_id
        now start_ts duration_ms tenant_id semantic_bucket environment inputs_raw
        captured_tool_calls (Except.error e)).2.map KurralArtifact.error
        = [some (toStr e)]) ∧
    ((asyncGenWrapper E toStr frag_ts config_from_none prompt_extracted true function_name
        kurral_id now start_ts duration_ms tenant_id semantic_bucket environment inputs_raw
        captured_tool_calls graph_version items (some e)).1 = (items, some e) ∧
      (asyncGenWrapper E toStr frag_ts config_from_none prompt_extracted true function_name
        kurral_id now start_ts duration_ms tenant_id semantic_bucket environment inputs_raw
        captured_tool_calls graph_version items (some e)).2.map KurralArtifact.error
        = [some (toStr e)]) := by
  refine ⟨⟨rfl, rfl⟩, ⟨rfl, rfl⟩, ⟨rfl, rfl⟩⟩

/-- Modelled from the spec: the tool-call status string (`status.value`)
serialized into cache stub payloads. -/
def toolStatusValue : ToolStatus → String
  | .OK => "OK"
  | .ERROR => "ERROR"

/-- A Python value that may be `None`, as a JSON dictionary value. -/
def jsonOfOpt (o : Option Json) : Json :=
  o.getD .null

/-- An optional string as a JSON dictionary value. -/
def jsonOfOptStr (o : Option String) : Json :=
  match o with
  | some s => .str s
  | none => .null

/-- `ReplayEngine._build_tool_stub_payload` from
`kurral/core/replay.py`: resolve `output or outputs` and
`input or inputs` with Python truthiness, refuse tool calls without a
truthy cache key or with both payloads `None`, then assemble the stub
dictionary. -/
def buildToolStubPayload (tc : ToolCall) : Option (List (String × Json)) :=
  let output_payload := pyOrJson tc.output tc.outputs
  let input_payload := pyOrJson tc.input tc.inputs
  if !(pyStrTruthy tc.cache_key) then none
  else if output_payload.isNone && input_payload.isNone then none
  else
    let status_value : Option String := tc.status.map toolStatusValue
    let effect_type_value : Option String := tc.effect_type
    some
      ([("tool_name", .str tc.tool_name), ("input", jsonOfOpt input_payload),
        ("output", jsonOfOpt output_payload), ("status", jsonOfOptStr status_value),
        ("latency_ms", .int tc.latency_ms), ("cache_key", jsonOfOptStr tc.cache_key),
        ("output_hash", jsonOfOptStr tc.output_hash)]
        ++ (if pyStrTruthy tc.summary then [("summary", jsonOfOptStr tc.summary)] else [])
        ++ (if pyStrTruthy tc.error_text then [("error_text", jsonOfOptStr tc.error_text)] else [])
        ++ (if pyStrTruthy effect_type_value then [("effect_type", jsonOfOptStr effect_type_value)] else []))

/-- The condition under which the replay loop counts a tool call as a
cache hit: a truthy cache key and at least one replayable payload. -/
def replayableToolCall (tc : ToolCall) : Bool :=
  pyStrTruthy tc.cache_key &&
    !((pyOrJson tc.output tc.outputs).isNone && (pyOrJson tc.input tc.inputs).isNone)

theorem buildToolStubPayload_isSome (tc : ToolCall) :
    (buildToolStubPayload tc).isSome = replayableToolCall tc := by
  unfold buildToolStubPayload replayableToolCall
  by_cases h1 : pyStrTruthy tc.cache_key
  · by_cases h2 : ((pyOrJson tc.output tc.outputs).isNone
        && (pyOrJson tc.input tc.inputs).isNone) = true
    · simp [h1, h2]
    · simp only [Bool.not_eq_true] at h2
      simp [h1, h2]
  · simp only [Bool.not_eq_true] at h1
    simp [h1]

/-- The priming loop at the top of `ReplayEngine.replay`: walk the
artifact's tool calls in order, prime the cache and mark
`stubbed_in_replay` on a hit, count a miss and keep the call unchanged
otherwise. -/
def replayPrimeLoop (now : Int) : List ToolCall → MemoryCache →
    (Nat × Nat × List ToolCall × MemoryCache)
  | [], cache => (0, 0, [], cache)
  | tc :: rest, cache =>
    match buildToolStubPayload tc with
    | none =>
      let r := replayPrimeLoop now rest cache
      (r.1, r.2.1 + 1, tc :: r.2.2.1, r.2.2.2)
    | some payload =>
      let cache2 := cache.prime now (tc.cache_key.getD "") (Json.obj payload)
      let r := replayPrimeLoop now rest cache2
      (r.1 + 1, r.2.1, { tc with stubbed_in_replay := true } :: r.2.2.1, r.2.2.2)

/-- `ReplayEngine._compare_outputs`: canonical-serialization equality. -/
def compareOutputs (original replayed : List (String × Json)) : Bool :=
  dumpsObj original == dumpsObj replayed

/-- `ReplayEngine._calculate_diff`: keys only in the replay, keys only
in the original, and per-key value changes. -/
def calculateDiff (original replayed : List (String × Json)) : Json :=
  let added := replayed.filter (fun kv => !(dictGet original kv.1).isSome)
  let modified := (replayed.filter (fun kv =>
      match dictGet original kv.1 with
      | some v => !(Json.beq v kv.2)
      | none => false)).map (fun kv =>
        (kv.1, Json.obj [("original", (dictGet original kv.1).getD .null),
                         ("replayed", kv.2)]))
  let removed := original.filter (fun kv => !(dictGet replayed kv.1).isSome)
  Json.obj [("added", .obj added), ("removed", .obj removed), ("modified", .obj modified)]

/-- `isinstance(replayed, type(original))` on JSON leaves; Python's
`bool` is a subclass of `int`. -/
def jsonTypeMatch : Json → Json → Bool
  | .bool _, .bool _ => true
  | .int _, .int _ => true
  | .int _, .bool _ => true
  | .str _, .str _ => true
  | .arr _, .arr _ => true
  | .obj _, .obj _ => true
  | _, _ => false

/-- Membership of a key in a dictionary. -/
def keyMem (m : List (String × Json)) (k : String) : Bool :=
  (m.find? (fun kv => kv.1 == k)).isSome

mutual

/-- `ReplayEngine._structural_match`: objects match on equal key sets
and recursively matching values, lists on equal length and pointwise
match, `None` only on `None`, and leaves on Python type equality. -/
def structuralMatch : Json → Json → Bool
  | .obj a, .obj b =>
    a.all (fun kv => keyMem b kv.1) && b.all (fun kv => keyMem a kv.1)
      && structFieldsMatch a b
  | .arr a, .arr b => structItemsMatch a b
  | .null, .null => true
  | .null, _ => false
  | _, .null => false
  | a, b => jsonTypeMatch a b

/-- Each original field recursively matched against the replayed value
under the same key. -/
def structFieldsMatch : List (String × Json) → List (String × Json) → Bool
  | [], _ => true
  | kv :: rest, b =>
    (match (b.find? (fun kv2 => kv2.1 == kv.1)) with
     | some kv2 => structuralMatch kv.2 kv2.2
     | none => false) && structFieldsMatch rest b

/-- Lists matched pointwise with equal lengths. -/
def structItemsMatch : List Json → List Json → Bool
  | [], [] => true
  | x :: xs, y :: ys => structuralMatch x y && structItemsMatch xs ys
  | _, _ => false

end

/-- Modelled from the spec: the `ReplayValidation` block of the
`ReplayResult` model — original and replay hashes, the hash-match and
structural-match flags, and the diff. -/
structure ReplayValidation where
  original_hash : String
  replay_hash : String
  hash_match : Bool
  structural_match : Bool
  diff : Option Json
deriving Repr

/-- `ReplayEngine._hash_payload` with the SHA-256 primitive passed in
as `h`: hash the canonical serialization. -/
def hashPayload (h : String → String) (payload : List (String × Json)) : String :=
  h (dumpsObj payload)

/-- `ReplayEngine._compute_validation`. -/
def computeValidation (h : String → String) (original replayed : List (String × Json))
    (diff : Option Json) : ReplayValidation :=
  let original_hash := hashPayload h original
  let replay_hash := hashPayload h replayed
  { original_hash, replay_hash,
    hash_match := original_hash == replay_hash,
    structural_match := structuralMatch (.obj original) (.obj replayed),
    diff }

/-- `fragment_str = fragment or ""` followed by `len(fragment_str)`: a
falsy fragment becomes the empty string (length 0); Python's `len`
succeeds on a string, list or dictionary (yielding its character,
element or key count, the entry keeping `fragment_str` itself), and
raises `TypeError` on a truthy number or boolean. -/
def pyFragmentStr (j : Json) : Except Unit (Json × Nat) :=
  if j.pyTruthy then
    match j with
    | .str s => .ok (.str s, s.length)
    | .arr l => .ok (.arr l, l.length)
    | .obj l => .ok (.obj l, l.length)
    | _ => .error ()
  else .ok (.str "", 0)

/-- The stream-map synthesis loop of
`ReplayEngine._reconstruct_output_stream`: running offsets, item
lengths, positional indices, and null timestamps. -/
def synthStreamMap : List Json → Nat → Nat → Except Unit (List Json)
  | [], _, _ => .ok []
  | fragment :: rest, index, offset =>
    match pyFragmentStr fragment with
    | .error _ => .error ()
    | .ok (fragment_str, len) =>
      match synthStreamMap rest (index + 1) (offset + len) with
      | .error _ => .error ()
      | .ok tail =>
        .ok (Json.obj [("fragment", fragment_str), ("offset", .int offset),
              ("length", .int len), ("index", .int index),
              ("timestamp_ms", .null)] :: tail)

/-- `"".join(items)`: raises `TypeError` on a non-string item. -/
def joinStrItems : List Json → Except Unit String
  | [] => .ok ""
  | .str s :: rest => Except.map (fun t => s ++ t) (joinStrItems rest)
  | _ :: _ => .error ()

/-- The `items` fallback of `_reconstruct_output_stream`: when items
are absent and the full text is a string, chunk it into one fragment. -/
def itemsAfterFallback (items0 full_text0 : Option Json) : Option Json :=
  match items0, full_text0 with
  | none, some (.str s) => some (Json.arr [Json.str s])
  | _, _ => items0

/-- The `full_text` fallback of `_reconstruct_output_stream`: when the
full text is absent and items form a list, join them. -/
def fullTextAfterJoin (full_text0 items1 : Option Json) : Except Unit (Option Json) :=
  match full_text0, items1 with
  | none, some (.arr l) => Except.map (fun s => some (Json.str s)) (joinStrItems l)
  | _, _ => Except.ok full_text0

/-- The stream-map fallback of `_reconstruct_output_stream`: when no
stream map is stored and items form a list, synthesize one. -/
def streamMapAfterSynth (stream_map0 items1 : Option Json) : Except Unit (Option Json) :=
  match stream_map0, items1 with
  | none, some (.arr l) => Except.map (fun es => some (Json.arr es)) (synthStreamMap l 0 0)
  | _, _ => Except.ok stream_map0

/-- `ReplayEngine._reconstruct_output_stream`: fall back from
`full_text` to a singleton item list, join items into a full text,
synthesize a stream map when none is stored, and return `None` when
neither items nor full text exist. -/
def reconstructOutputStream (outputs : List (String × Json)) :
    Except Unit (Option (List (String × Json))) :=
  let items0 := pyGet outputs "items"
  let full_text0 := pyGet outputs "full_text"
  let stream_map0 := pyGet outputs "stream_map"
  let items1 := itemsAfterFallback items0 full_text0
  match fullTextAfterJoin full_text0 items1 with
  | .error _ => .error ()
  | .ok full_text1 =>
    match streamMapAfterSynth stream_map0 items1 with
    | .error _ => .error ()
    | .ok stream_map1 =>
      if items1.isNone && full_text1.isNone then .ok none
      else .ok (some [("items", jsonOfOpt items1), ("full_text", jsonOfOpt full_text1),
                      ("stream_map", jsonOfOpt stream_map1)])

/-- Modelled from the spec: the sampling state snapshot
(`ReplayLLMState`) the replay result carries. -/
structure ReplayLLMState where
  model_name : String
  provider : String
  model_version : Option String
  temperature : ℚ
  top_p : Option ℚ
  top_k : Option Int
  max_tokens : Option Int
  frequency_penalty : Option ℚ
  presence_penalty : Option ℚ
  seed : Option Int
deriving Repr

/-- `ReplayEngine._build_llm_state`. -/
def buildLLMState (artifact : KurralArtifact) : ReplayLLMState :=
  let params := artifact.llm_config.parameters
  { model_name := artifact.llm_config.model_name,
    provider := artifact.llm_config.provider,
    model_version := artifact.llm_config.model_version,
    temperature := params.temperature,
    top_p := params.top_p,
    top_k := params.top_k,
    max_tokens := params.max_tokens,
    frequency_penalty := params.frequency_penalty,
    presence_penalty := params.presence_penalty,
    seed := params.seed }

/-- Modelled from the spec: `ReplayOverrides` — alternate inputs,
prompt text, temperature, model name, max tokens. -/
structure ReplayOverrides where
  inputs : Option (List (String × Json))
  prompt : Option String
  temperature : Option ℚ
  model_name : Option String
  max_tokens : Option Int
deriving Repr

/-- Modelled from the spec: the `ReplayResult` record.  The fields
holding a fresh UUID and the wall-clock replay timestamp
(`replay_metadata`, `replay_timestamp`) are not modelled; `match` is a
Lean keyword, so the source's `match` field is `match_flag`. -/
structure ReplayResult where
  kurral_id : String
  outputs : List (String × Json)
  match_flag : Bool
  diff : Option Json
  tool_calls : List ToolCall
  duration_ms : Int
  cache_hits : Nat
  cache_misses : Nat
  stream : Option (List (String × Json))
  graph_version : Option Json
  llm_state : ReplayLLMState
  validation : ReplayValidation
deriving Repr

/-- `ReplayEngine.replay` from `kurral/core/replay.py`, with the hash
primitive `h` and the wall clock `now` passed in (the start and end
timestamps coincide under an instantaneous clock, so `duration_ms` is
zero).  A `TypeError` escaping `_reconstruct_output_stream` aborts the
call, which the `Except` layer captures. -/
def replayEngineReplay (h : String → String) (now : Int) (cache : MemoryCache)
    (artifact : KurralArtifact) (overrides : Option ReplayOverrides) :
    Except Unit (ReplayResult × MemoryCache) :=
  let primed := replayPrimeLoop now artifact.tool_calls cache
  let cache_hits := primed.1
  let cache_misses := primed.2.1
  let stubbed_tool_calls := primed.2.2.1
  let cache2 := primed.2.2.2
  let outputs :=
    match overrides with
    | some _ => artifact.outputs
    | none => artifact.outputs
  let match_flag := compareOutputs artifact.outputs outputs
  let diff := if match_flag then none else some (calculateDiff artifact.outputs outputs)
  match reconstructOutputStream artifact.outputs with
  | .error _ => .error ()
  | .ok stream_data =>
    let validation := computeValidation h artifact.outputs outputs diff
    let llm_state := buildLLMState artifact
    .ok ({ kurral_id := artifact.kurral_id,
           outputs := outputs,
           match_flag := match_flag,
           diff := diff,
           tool_calls := if !stubbed_tool_calls.isEmpty then stubbed_tool_calls
                         else artifact.tool_calls,
           duration_ms := 0,
           cache_hits := cache_hits,
           cache_misses := cache_misses,
           stream := stream_data,
           graph_version := artifact.graph_version,
           llm_state := llm_state,
           validation := validation }, cache2)

/-- Whether an `Except` computation succeeded. -/
def exceptIsOk {ε α : Type} : Except ε α → Bool
  | .ok _ => true
  | .error _ => false

theorem exceptIsOk_exists {ε α : Type} (x : Except ε α)
    (hx : exceptIsOk x = true) : ∃ a, x = Except.ok a := by
  cases x with
  | ok a => exact ⟨a, rfl⟩
  | error e => simp [exceptIsOk] at hx

/-- Claim C1 (amended): for every artifact whose stream reconstruction
does not raise, a replay with no overrides succeeds and returns the
artifact's original outputs with `match = true` and
`hash_match = true`, for any hash primitive, clock and cache. -/
theorem replay_no_overrides_canonical (h : String → String) (now : Int)
    (cache : MemoryCache) (A : KurralArtifact)
    (hok : exceptIsOk (reconstructOutputStream A.outputs) = true) :
    ∃ r c2, replayEngineReplay h now cache A none = Except.ok (r, c2) ∧
      r.outputs = A.outputs ∧ r.match_flag = true ∧
      r.validation.hash_match = true := by
  obtain ⟨sd, hrec⟩ := exceptIsOk_exists _ hok
  have hcmp : compareOutputs A.outputs A.outputs = true := by
    simp [compareOutputs]
  have hform : replayEngineReplay h now cache A none = Except.ok
      ({ kurral_id := A.kurral_id,
         outputs := A.outputs,
         match_flag := compareOutputs A.outputs A.outputs,
         diff := if compareOutputs A.outputs A.outputs then none
                 else some (calculateDiff A.outputs A.outputs),
         tool_calls := if !(replayPrimeLoop now A.tool_calls cache).2.2.1.isEmpty
                       then (replayPrimeLoop now A.tool_calls cache).2.2.1
                       else A.tool_calls,
         duration_ms := 0,
         cache_hits := (replayPrimeLoop now A.tool_calls cache).1,
         cache_misses := (replayPrimeLoop now A.tool_calls cache).2.1,
         stream := sd,
         graph_version := A.graph_version,
         llm_state := buildLLMState A,
         validation := computeValidation h A.outputs A.outputs
           (if compareOutputs A.outputs A.outputs then none
            else some (calculateDiff A.outputs A.outputs)) },
       (replayPrimeLoop now A.tool_calls cache).2.2.2) := by
    simp only [replayEngineReplay]
    rw [hrec]
  refine ⟨_, _, hform, rfl, hcmp, ?_⟩
  show (hashPayload h A.outputs == hashPayload h A.outputs) = true
  simp

/-- A small artifact with only a full text, used to instantiate the
replay theorems on concrete input. -/
def artifactHi : KurralArtifact :=
  { kurral_id := "a1", run_id := "r1", tenant_id := "t1", semantic_buckets := [],
    environment := "production", schema_version := "1.0.0", created_by := none,
    deterministic := true, replay_level := .A,
    determinism_report := { overall_score := 1, breakdown := [], missing_fields := [], warnings := [] },
    inputs := [("q", Json.str "hello")], outputs := [("full_text", Json.str "hi")],
    error := none,
    llm_config := { model_name := "m-1", model_version := some "1", provider := "p",
                    parameters := { temperature := 0, seed := some 42, top_p := none,
                                    top_k := none, max_tokens := none,
                                    frequency_penalty := none, presence_penalty := none } },
    resolved_prompt := { template := "t", vars := [], final_text := "t" },
    graph_version := none, tool_calls := [], time_env := none, duration_ms := 1,
    cost_usd := none,
    token_usage := { prompt_tokens := 0, completion_tokens := 0, total_tokens := 0 },
    tags := [] }

/-- An artifact carrying a full text next to a container item: the
stream synthesis records the list itself as the fragment with its
element count as the length, and replay completes. -/
def artifactMixed : KurralArtifact :=
  { artifactHi with
    kurral_id := "a4"
    outputs := [("full_text", Json.str "x"),
                ("items", Json.arr [Json.arr [Json.str "a"]])] }

/-- Closed witness for the amended C1 theorem, on an artifact whose
outputs mix a full text with a list-valued item. -/
theorem replay_no_overrides_canonical_witness :
    (replayEngineReplay id 0 ⟨3600, []⟩ artifactMixed none).map
        (fun rc => (rc.1.outputs, rc.1.match_flag, rc.1.validation.hash_match))
      = Except.ok (artifactMixed.outputs, true, true) := by
  obtain ⟨r, c2, heq, h1, h2, h3⟩ :=
    replay_no_overrides_canonical id 0 ⟨3600, []⟩ artifactMixed rfl
  rw [heq]
  simp [Except.map, h1, h2, h3]

/-- An artifact whose outputs hold a non-string item and no full text,
on which `_reconstruct_output_stream` raises `TypeError` inside
`"".join(items)`. -/
def artifactItemsInt : KurralArtifact :=
  { artifactHi with kurral_id := "a2", outputs := [("items", Json.arr [Json.int 1])] }

/-- Counterexample to claim C1 as stated: replay is not total over
artifacts — on outputs `{"items": [1]}` the stream reconstruction
raises a `TypeError` (joining a non-string item), so no replay result
exists at all, let alone one with `match = true`. -/
theorem replay_no_overrides_counterexample :
    ¬ ∀ (h : String → String) (now : Int) (cache : MemoryCache) (A : KurralArtifact),
        ∃ r c2, replayEngineReplay h now cache A none = Except.ok (r, c2) ∧
          r.outputs = A.outputs ∧ r.match_flag = true ∧
          r.validation.hash_match = true := by
  intro hc
  obtain ⟨r, c2, heq, -⟩ := hc id 0 ⟨3600, []⟩ artifactItemsInt
  rw [show replayEngineReplay id 0 ⟨3600, []⟩ artifactItemsInt none = Except.error ()
    from rfl] at heq
  exact Except.noConfusion heq

theorem countP_add_countP_not {α : Type} (p : α → Bool) (l : List α) :
    l.countP p + l.countP (fun a => !(p a)) = l.length := by
  induction l with
  | nil => simp
  | cons x xs ih =>
    by_cases hx : p x = true <;>
      simp [List.countP_cons, hx, ← ih] <;> omega

theorem replayPrimeLoop_spec (now : Int) (l : List ToolCall) (cache : MemoryCache) :
    (replayPrimeLoop now l cache).1 = l.countP replayableToolCall ∧
    (replayPrimeLoop now l cache).2.1 = l.countP (fun tc => !(replayableToolCall tc)) ∧
    (replayPrimeLoop now l cache).2.2.1 = l.map
      (fun tc => if replayableToolCall tc then { tc with stubbed_in_replay := true }
                 else tc) := by
  induction l generalizing cache with
  | nil => simp [replayPrimeLoop]
  | cons tc rest ih =>
    rcases hb : buildToolStubPayload tc with _ | payload
    · have hrep : replayableToolCall tc = false := by
        rw [← buildToolStubPayload_isSome, hb]
        rfl
      simp [replayPrimeLoop, hb, hrep, List.countP_cons, (ih cache).1,
        (ih cache).2.1, (ih cache).2.2]
    · have hrep : replayableToolCall tc = true := by
        rw [← buildToolStubPayload_isSome, hb]
        rfl
      have ih2 := ih (cache.prime now (tc.cache_key.getD "") (Json.obj payload))
      simp [replayPrimeLoop, hb, hrep, List.countP_cons, ih2.1, ih2.2.1, ih2.2.2]

/-- Claim C7: during replay, every tool call with a truthy cache key
and a replayable input or output payload is counted as exactly one
cache hit and appears in the result with `stubbed_in_replay = true`;
every other tool call is counted as exactly one cache miss and passes
through unchanged, so hits plus misses equals the number of tool
calls. -/
theorem replay_hit_miss_accounting (h : String → String) (now : Int)
    (cache : MemoryCache) (A : KurralArtifact) (overrides : Option ReplayOverrides)
    (hok : exceptIsOk (reconstructOutputStream A.outputs) = true) :
    ∃ r c2, replayEngineReplay h now cache A overrides = Except.ok (r, c2) ∧
      r.cache_hits = A.tool_calls.countP replayableToolCall ∧
      r.cache_misses = A.tool_calls.countP (fun tc => !(replayableToolCall tc)) ∧
      r.cache_hits + r.cache_misses = A.tool_calls.length ∧
      r.tool_calls = A.tool_calls.map
        (fun tc => if replayableToolCall tc then { tc with stubbed_in_replay := true }
                   else tc) := by
  obtain ⟨sd, hrec⟩ := exceptIsOk_exists _ hok
  have hspec := replayPrimeLoop_spec now A.tool_calls cache
  have hform : replayEngineReplay h now cache A overrides = Except.ok
      ({ kurral_id := A.kurral_id,
         outputs := A.outputs,
         match_flag := compareOutputs A.outputs A.outputs,
         diff := if compareOutputs A.outputs A.outputs then none
                 else some (calculateDiff A.outputs A.outputs),
         tool_calls := if !(replayPrimeLoop now A.tool_calls cache).2.2.1.isEmpty
                       then (replayPrimeLoop now A.tool_calls cache).2.2.1
                       else A.tool_calls,
         duration_ms := 0,
         cache_hits := (replayPrimeLoop now A.tool_calls cache).1,
         cache_misses := (replayPrimeLoop now A.tool_calls cache).2.1,
         stream := sd,
         graph_version := A.graph_version,
         llm_state := buildLLMState A,
         validation := computeValidation h A.outputs A.outputs
           (if compareOutputs A.outputs A.outputs then none
            else some (calculateDiff A.outputs A.outputs)) },
       (replayPrimeLoop now A.tool_calls cache).2.2.2) := by
    cases overrides <;>
      · simp only [replayEngineReplay]
        rw [hrec]
  refine ⟨_, _, hform, hspec.1, hspec.2.1, ?_, ?_⟩
  · show (replayPrimeLoop now A.tool_calls cache).1
      + (replayPrimeLoop now A.tool_calls cache).2.1 = A.tool_calls.length
    rw [hspec.1, hspec.2.1]
    exact countP_add_countP_not _ _
  · show (if !(replayPrimeLoop now A.tool_calls cache).2.2.1.isEmpty
        then (replayPrimeLoop now A.tool_calls cache).2.2.1 else A.tool_calls) = _
    rw [hspec.2.2]
    cases A.tool_calls with
    | nil => simp
    | cons tc rest => simp

/-- A replayable tool call: a present cache key and a recorded
output. -/
def toolCallHit : ToolCall :=
  { tool_name := "calculator",
    input := some (Json.obj [("op", Json.str "add"), ("a", Json.int 2), ("b", Json.int 3)]),
    inputs := none, output := some (Json.obj [("result", Json.int 5)]), outputs := none,
    effect_type := none, latency_ms := 3, status := some .OK, error := none,
    error_text := none, summary := none, cache_key := some "cachekey1",
    output_hash := none, stubbed_in_replay := false }

/-- A tool call with no cache key, which replay counts as a miss. -/
def toolCallMiss : ToolCall :=
  { toolCallHit with tool_name := "uncached", cache_key := none }

/-- An artifact carrying one replayable and one unreplayable tool
call. -/
def artifactTwoCalls : KurralArtifact :=
  { artifactHi with kurral_id := "a3", tool_calls := [toolCallHit, toolCallMiss] }

/-- Closed witness for C7: one hit, one miss, flags in order. -/
theorem replay_hit_miss_accounting_witness :
    (replayEngineReplay id 0 ⟨3600, []⟩ artifactTwoCalls none).map
        (fun rc => (rc.1.cache_hits, rc.1.cache_misses,
          rc.1.tool_calls.map ToolCall.stubbed_in_replay))
      = Except.ok (1, 1, [true, false]) := by
  obtain ⟨r, c2, heq, h1, h2, h3, h4⟩ :=
    replay_hit_miss_accounting id 0 ⟨3600, []⟩ artifactTwoCalls none rfl
  rw [heq]
  simp only [Except.map]
  rw [show r.cache_hits = 1 from by rw [h1]; rfl,
    show r.cache_misses = 1 from by rw [h2]; rfl,
    show r.tool_calls.map ToolCall.stubbed_in_replay = [true, false] from by rw [h4]; rfl]

/-- Whether every item is a JSON string. -/
def allStringItems (l : List Json) : Bool :=
  l.all (fun j => match j with | .str _ => true | _ => false)

/-- The string at a position of an item list (empty if absent or not a
string). -/
def strAt (l : List Json) (k : Nat) : String :=
  match l.get? k with
  | some (.str s) => s
  | _ => ""

/-- Total length of the string items of a list. -/
def sumLens (l : List Json) : Nat :=
  (l.map (fun j => match j with | .str s => s.length | _ => 0)).sum

/-- The stream-map entry claim C8 describes: the fragment, an offset
equal to the sum of all previous fragment lengths, the fragment length,
the index, and a null timestamp. -/
def claimedStreamEntry (l : List Json) (k : Nat) : Json :=
  Json.obj [("fragment", Json.str (strAt l k)),
            ("offset", Json.int (sumLens (l.take k))),
            ("length", Json.int (strAt l k).length),
            ("index", Json.int k), ("timestamp_ms", Json.null)]

theorem pyFragmentStr_str (s : String) :
    pyFragmentStr (Json.str s) = Except.ok (Json.str s, s.length) := by
  unfold pyFragmentStr
  by_cases h : s = ""
  · subst h; simp [Json.pyTruthy]
  · simp [Json.pyTruthy, h]

theorem joinStrItems_ok (l : List Json) (hall : allStringItems l = true) :
    ∃ s, joinStrItems l = Except.ok s := by
  induction l with
  | nil => exact ⟨"", rfl⟩
  | cons j rest ih =>
    obtain ⟨s, rfl⟩ : ∃ s, j = Json.str s := by
      cases j with
      | str s => exact ⟨s, rfl⟩
      | null => simp [allStringItems] at hall
      | bool b => simp [allStringItems] at hall
      | int n => simp [allStringItems] at hall
      | arr a => simp [allStringItems] at hall
      | obj o => simp [allStringItems] at hall
    have hrest : allStringItems rest = true := by
      simpa [allStringItems] using hall
    obtain ⟨t, ht⟩ := ih hrest
    exact ⟨s ++ t, by simp [joinStrItems, ht, Except.map]⟩

theorem synthStreamMap_spec (l : List Json) (hall : allStringItems l = true) :
    ∀ i off : Nat, ∃ entries, synthStreamMap l i off = Except.ok entries ∧
      entries.length = l.length ∧
      ∀ k, k < l.length → entries.get? k = some (Json.obj
        [("fragment", Json.str (strAt l k)),
         ("offset", Json.int (off + sumLens (l.take k))),
         ("length", Json.int (strAt l k).length),
         ("index", Json.int (i + k)), ("timestamp_ms", Json.null)]) := by
  induction l with
  | nil =>
    intro i off
    exact ⟨[], rfl, rfl, fun k hk => absurd hk (by simp)⟩
  | cons j rest ih =>
    intro i off
    obtain ⟨s, rfl⟩ : ∃ s, j = Json.str s := by
      cases j with
      | str s => exact ⟨s, rfl⟩
      | null => simp [allStringItems] at hall
      | bool b => simp [allStringItems] at hall
      | int n => simp [allStringItems] at hall
      | arr a => simp [allStringItems] at hall
      | obj o => simp [allStringItems] at hall
    have hrest : allStringItems rest = true := by
      simpa [allStringItems] using hall
    obtain ⟨tail, htail, hlen, hget⟩ := ih hrest (i + 1) (off + s.length)
    refine ⟨Json.obj [("fragment", Json.str s), ("offset", Json.int off),
        ("length", Json.int s.length), ("index", Json.int i),
        ("timestamp_ms", Json.null)] :: tail, ?_, by simp [hlen], ?_⟩
    · simp [synthStreamMap, pyFragmentStr_str, htail]
    · intro k hk
      cases k with
      | zero => simp [strAt, sumLens]
      | succ k2 =>
        have hk2 : k2 < rest.length := by simpa using hk
        have hg := hget k2 hk2
        simp only [List.get?_cons_succ]
        rw [hg]
        have hoff : (↑(off + s.length) + ↑(sumLens (rest.take k2)) : Int)
            = ↑off + ↑(sumLens ((Json.str s :: rest).take (k2 + 1))) := by
          simp only [sumLens, List.take_succ_cons, List.map_cons, List.sum_cons]
          push_cast
          ring
        have hidx : (↑(i + 1) + ↑k2 : Int) = ↑i + ↑(k2 + 1) := by
          push_cast
          ring
        have hstr : strAt rest k2 = strAt (Json.str s :: rest) (k2 + 1) := by
          simp [strAt]
        rw [hoff, hidx, hstr]

/-- Counterexample to claim C8 as stated: outputs that hold a
stream-map but neither items nor a full text make the reconstruction
return `None` — the stored stream-map is dropped, not returned
intact. -/
theorem reconstruct_stream_map_counterexample :
    ¬ ∀ (outputs : List (String × Json)) (sm : Json),
        pyGet outputs "stream_map" = some sm →
        ∃ res, reconstructOutputStream outputs = Except.ok (some res) ∧
          pyLookup res "stream_map" = some sm := by
  intro hc
  obtain ⟨res, hres, -⟩ := hc [("stream_map", Json.arr [])] (Json.arr []) rfl
  rw [show reconstructOutputStream [("stream_map", Json.arr [])] = Except.ok none
    from rfl] at hres
  simp at hres

/-- Claim C8 (amended): a stored stream-map is returned intact when
items or a full text are also present (with neither, the result is
absent) and the reconstruction completes; with only string items a
stream-map with running byte offsets and null timestamps is
synthesized; with only a full text a single-fragment stream-map
spanning the whole text is emitted. -/
theorem reconstruct_stream_cases (outputs : List (String × Json)) :
    (∀ sm, pyGet outputs "stream_map" = some sm →
      ¬(pyGet outputs "items" = none ∧ pyGet outputs "full_text" = none) →
      exceptIsOk (reconstructOutputStream outputs) = true →
      ∃ res, reconstructOutputStream outputs = Except.ok (some res) ∧
        pyLookup res "stream_map" = some sm) ∧
    (∀ l, pyGet outputs "items" = some (Json.arr l) →
      pyGet outputs "full_text" = none → pyGet outputs "stream_map" = none →
      allStringItems l = true →
      ∃ res entries, reconstructOutputStream outputs = Except.ok (some res) ∧
        pyLookup res "stream_map" = some (Json.arr entries) ∧
        entries.length = l.length ∧
        ∀ k, k < l.length → entries.get? k = some (claimedStreamEntry l k)) ∧
    (∀ s, pyGet outputs "full_text" = some (Json.str s) →
      pyGet outputs "items" = none → pyGet outputs "stream_map" = none →
      reconstructOutputStream outputs = Except.ok (some
        [("items", Json.arr [Json.str s]), ("full_text", Json.str s),
         ("stream_map", Json.arr [Json.obj
           [("fragment", Json.str s), ("offset", Json.int 0),
            ("length", Json.int s.length), ("index", Json.int 0),
            ("timestamp_ms", Json.null)]])])) := by
  refine ⟨?_, ?_, ?_⟩
  · intro sm hsm hnb hok
    rcases hI : pyGet outputs "items" with _ | vI
    · rcases hF : pyGet outputs "full_text" with _ | vF
      · exact absurd ⟨hI, hF⟩ hnb
      · refine ⟨[("items", jsonOfOpt (itemsAfterFallback none (some vF))),
            ("full_text", vF), ("stream_map", sm)], ?_, ?_⟩
        · simp only [reconstructOutputStream]
          rw [hI, hF, hsm]
          simp [fullTextAfterJoin, streamMapAfterSynth, jsonOfOpt]
        · rfl
    · rcases hF : pyGet outputs "full_text" with _ | vF
      · cases vI with
        | arr l =>
          rcases hj : joinStrItems l with e | s
          · exfalso
            have herr : reconstructOutputStream outputs = Except.error () := by
              simp only [reconstructOutputStream]
              rw [hI, hF, hsm]
              simp [itemsAfterFallback, fullTextAfterJoin, hj, Except.map]
            rw [herr] at hok
            simp [exceptIsOk] at hok
          · refine ⟨[("items", Json.arr l), ("full_text", Json.str s),
                ("stream_map", sm)], ?_, rfl⟩
            simp only [reconstructOutputStream]
            rw [hI, hF, hsm]
            simp [itemsAfterFallback, fullTextAfterJoin, streamMapAfterSynth, hj,
              Except.map, jsonOfOpt]
        | null =>
          refine ⟨[("items", Json.null), ("full_text", Json.null),
              ("stream_map", sm)], ?_, rfl⟩
          simp only [reconstructOutputStream]
          rw [hI, hF, hsm]
          simp [itemsAfterFallback, fullTextAfterJoin, streamMapAfterSynth, jsonOfOpt]
        | bool b =>
          refine ⟨[("items", Json.bool b), ("full_text", Json.null),
              ("stream_map", sm)], ?_, rfl⟩
          simp only [reconstructOutputStream]
          rw [hI, hF, hsm]
          simp [itemsAfterFallback, fullTextAfterJoin, streamMapAfterSynth, jsonOfOpt]
        | int n =>
          refine ⟨[("items", Json.int n), ("full_text", Json.null),
              ("stream_map", sm)], ?_, rfl⟩
          simp only [reconstructOutputStream]
          rw [hI, hF, hsm]
          simp [itemsAfterFallback, fullTextAfterJoin, streamMapAfterSynth, jsonOfOpt]
        | str t =>
          refine ⟨[("items", Json.str t), ("full_text", Json.null),
              ("stream_map", sm)], ?_, rfl⟩
          simp only [reconstructOutputStream]
          rw [hI, hF, hsm]
          simp [itemsAfterFallback, fullTextAfterJoin, streamMapAfterSynth, jsonOfOpt]
        | obj o =>
          refine ⟨[("items", Json.obj o), ("full_text", Json.null),
              ("stream_map", sm)], ?_, rfl⟩
          simp only [reconstructOutputStream]
          rw [hI, hF, hsm]
          simp [itemsAfterFallback, fullTextAfterJoin, streamMapAfterSynth, jsonOfOpt]
      · refine ⟨[("items", vI), ("full_text", vF), ("stream_map", sm)], ?_, rfl⟩
        simp only [reconstructOutputStream]
        rw [hI, hF, hsm]
        simp [itemsAfterFallback, fullTextAfterJoin, streamMapAfterSynth, jsonOfOpt]
  · intro l hI hF hsm hall
    obtain ⟨s, hjoin⟩ := joinStrItems_ok l hall
    obtain ⟨entries, hsynth, hlen, hget⟩ := synthStreamMap_spec l hall 0 0
    refine ⟨[("items", Json.arr l), ("full_text", Json.str s),
        ("stream_map", Json.arr entries)], entries, ?_, rfl, hlen, ?_⟩
    · simp only [reconstructOutputStream]
      rw [hI, hF, hsm]
      simp [itemsAfterFallback, fullTextAfterJoin, streamMapAfterSynth, hjoin, hsynth,
        Except.map, jsonOfOpt]
    · intro k hk
      have hg := hget k hk
      rw [hg]
      simp [claimedStreamEntry]
  · intro s hF hI hsm
    simp only [reconstructOutputStream]
    rw [hI, hF, hsm]
    simp [itemsAfterFallback, fullTextAfterJoin, streamMapAfterSynth, synthStreamMap,
      pyFragmentStr_str, Except.map, jsonOfOpt]

/-- Closed witness for the amended C8 theorem: the full-text-only case
at a concrete output dictionary. -/
theorem reconstruct_stream_cases_witness :
    reconstructOutputStream [("full_text", Json.str "hi")] = Except.ok (some
      [("items", Json.arr [Json.str "hi"]), ("full_text", Json.str "hi"),
       ("stream_map", Json.arr [Json.obj
         [("fragment", Json.str "hi"), ("offset", Json.int 0),
          ("length", Json.int ("hi" : String).length), ("index", Json.int 0),
          ("timestamp_ms", Json.null)]])]) :=
  (reconstruct_stream_cases [("full_text", Json.str "hi")]).2.2 "hi" rfl rfl rfl

mutual

/-- Reflexivity of the Python equality embedding on JSON values. -/
theorem Json.beq_refl : ∀ v : Json, Json.beq v v = true
  | .null => rfl
  | .bool b => by simp [Json.beq]
  | .int n => by simp [Json.beq]
  | .str s => by simp [Json.beq]
  | .arr l => by simpa [Json.beq] using Json.beqList_refl l
  | .obj l => by simpa [Json.beq] using Json.beqFields_refl l

/-- Reflexivity of pointwise array equality. -/
theorem Json.beqList_refl : ∀ l : List Json, Json.beqList l l = true
  | [] => rfl
  | x :: xs => by simp [Json.beqList, Json.beq_refl x, Json.beqList_refl xs]

/-- Reflexivity of pointwise field equality. -/
theorem Json.beqFields_refl : ∀ l : List (String × Json), Json.beqFields l l = true
  | [] => rfl
  | kv :: rest => by simp [Json.beqFields, Json.beq_refl kv.2, Json.beqFields_refl rest]

end

/-- Character at an index of a character list (indices stay in range in
every use). -/
def charAt (l : List Char) (i : Nat) : Char :=
  (l.get? i).getD (Char.ofNat 0)

/-- The state `(besti, bestj, bestsize)` of difflib's
`find_longest_match`. -/
structure FlmState where
  besti : Nat
  bestj : Nat
  bestsize : Nat
deriving Repr, DecidableEq

/-- The inner loop of `find_longest_match` over the positions of `a[i]`
in `b` (already restricted to `[blo, bhi)`): extend chains recorded in
`j2len` and track the leftmost longest block. -/
def flmInnerLoop (i : Nat) (js : List Nat) (j2len : Nat → Nat)
    (newj2len : Nat → Nat) (st : FlmState) : (Nat → Nat) × FlmState :=
  match js with
  | [] => (newj2len, st)
  | j :: rest =>
    let k := (if j = 0 then 0 else j2len (j - 1)) + 1
    let newj2len2 : Nat → Nat := fun x => if x = j then k else newj2len x
    let st2 := if k > st.bestsize then ⟨i + 1 - k, j + 1 - k, k⟩ else st
    flmInnerLoop i rest j2len newj2len2 st2

/-- The outer loop of `find_longest_match` over `i ∈ [alo, ahi)`.  The
`continue`/`break` guards on an ascending position list are the
restriction to `[blo, bhi)`. -/
def flmRows (a : List Char) (b2j : Char → List Nat) (blo bhi : Nat) :
    Nat → Nat → (Nat → Nat) → FlmState → FlmState
  | 0, _, _, st => st
  | cnt + 1, i, j2len, st =>
    let js := (b2j (charAt a i)).filter (fun j => blo ≤ j && j < bhi)
    let r := flmInnerLoop i js j2len (fun _ => 0) st
    flmRows a b2j blo bhi cnt (i + 1) r.1 r.2

/-- The first `while` of `find_longest_match`: extend the block
leftwards over equal (non-junk; the junk set is empty since the source
always passes `isjunk=None`) characters. -/
def flmExtendFront (a b : List Char) (alo blo : Nat) :
    Nat → FlmState → FlmState
  | 0, st => st
  | fuel + 1, st =>
    if st.besti > alo && st.bestj > blo
        && (charAt a (st.besti - 1) == charAt b (st.bestj - 1)) then
      flmExtendFront a b alo blo fuel ⟨st.besti - 1, st.bestj - 1, st.bestsize + 1⟩
    else st

/-- The second `while` of `find_longest_match`: extend the block
rightwards over equal characters.  The remaining two junk-extension
loops never fire because the junk set is empty. -/
def flmExtendBack (a b : List Char) (ahi bhi : Nat) :
    Nat → FlmState → FlmState
  | 0, st => st
  | fuel + 1, st =>
    if st.besti + st.bestsize < ahi && st.bestj + st.bestsize < bhi
        && (charAt a (st.besti + st.bestsize) == charAt b (st.bestj + st.bestsize)) then
      flmExtendBack a b ahi bhi fuel ⟨st.besti, st.bestj, st.bestsize + 1⟩
    else st

/-- difflib's `SequenceMatcher.find_longest_match` on `[alo, ahi)` ×
`[blo, bhi)` with `isjunk=None`. -/
def findLongestMatch (a b : List Char) (b2j : Char → List Nat)
    (alo ahi blo bhi : Nat) : FlmState :=
  let st1 := flmRows a b2j blo bhi (ahi - alo) alo (fun _ => 0) ⟨alo, blo, 0⟩
  let st2 := flmExtendFront a b alo blo st1.besti st1
  flmExtendBack a b ahi bhi ahi st2

/-- The ascending position list of a character in `b` (difflib's
`b2j`). -/
def buildB2J (b : List Char) (c : Char) : List Nat :=
  (List.range b.length).filter (fun j => charAt b j == c)

/-- `b2j` after the autojunk purge: for `len(b) >= 200`, characters
occurring more than `len(b) // 100 + 1` times are dropped. -/
def b2jAutojunk (b : List Char) (c : Char) : List Nat :=
  let idxs := buildB2J b c
  if b.length ≥ 200 && idxs.length > b.length / 100 + 1 then [] else idxs

/-- Total matched size over difflib's `get_matching_blocks`
decomposition: recursively take the longest match and recurse on the
two remaining corners, exactly as the queue in the source walks them
(the queue order does not change the sum).  The fuel strictly exceeds
any possible recursion depth. -/
def matchesTotal (a b : List Char) (b2j : Char → List Nat) :
    Nat → Nat → Nat → Nat → Nat → Nat
  | 0, _, _, _, _ => 0
  | fuel + 1, alo, ahi, blo, bhi =>
    let st := findLongestMatch a b b2j alo ahi blo bhi
    if st.bestsize = 0 then 0
    else
      st.bestsize
        + (if alo < st.besti && blo < st.bestj then
            matchesTotal a b b2j fuel alo st.besti blo st.bestj
          else 0)
        + (if st.besti + st.bestsize < ahi && st.bestj + st.bestsize < bhi then
            matchesTotal a b b2j fuel (st.besti + st.bestsize) ahi
              (st.bestj + st.bestsize) bhi
          else 0)

/-- The total matched size of `SequenceMatcher(None, a, b)`. -/
def sequenceMatcherM (a b : List Char) : Nat :=
  matchesTotal a b (b2jAutojunk b) (a.length + b.length + 1) 0 a.length 0 b.length

/-- `SequenceMatcher(None, a, b).ratio()`:
`2 * matches / (len(a) + len(b))`, and `1.0` on two empty sequences. -/
def sequenceMatcherRatio (sa sb : String) : ℚ :=
  let a := sa.toList
  let b := sb.toList
  if a.length + b.length = 0 then 1
  else 2 * (sequenceMatcherM a b : ℚ) / ((a.length + b.length : Nat) : ℚ)

/-- `ARSCalculator._output_similarity` from `kurral/core/ars.py`. -/
def outputSimilarity (baseline candidate : KurralArtifact) : ℚ :=
  let baseline_text := dumpsObj baseline.outputs
  let candidate_text := dumpsObj candidate.outputs
  if baseline_text == candidate_text then 1
  else sequenceMatcherRatio baseline_text candidate_text

/-- The `(tool_name, json.dumps(inputs, sort_keys=True))` pair
`_tool_match_rate` compares. -/
def toolCallTuple (tc : ToolCall) : String × String :=
  (tc.tool_name, (jsonOfOpt tc.inputs).dumps)

/-- `ARSCalculator._tool_match_rate`: equal sequences score 1, a single
empty side scores 0, otherwise the Jaccard index of the tuple sets. -/
def toolMatchRate (baseline candidate : KurralArtifact) : ℚ :=
  if baseline.tool_calls.isEmpty && candidate.tool_calls.isEmpty then 1
  else if baseline.tool_calls.isEmpty || candidate.tool_calls.isEmpty then 0
  else
    let baseline_calls := baseline.tool_calls.map toolCallTuple
    let candidate_calls := candidate.tool_calls.map toolCallTuple
    if baseline_calls == candidate_calls then 1
    else
      let baseline_set := baseline_calls.toFinset
      let candidate_set := candidate_calls.toFinset
      if baseline_set = ∅ ∨ candidate_set = ∅ then 0
      else
        let inter := (baseline_set ∩ candidate_set).card
        let union := (baseline_set ∪ candidate_set).card
        if union > 0 then (inter : ℚ) / (union : ℚ) else 0

/-- `ARSCalculator._is_side_effect_tool`: substring search of the write
patterns in the lowercased tool name. -/
def patternChunkEq : List Char → List Char → Bool
  | [], _ => true
  | _ :: _, [] => false
  | p :: ps, c :: cs => p == c && patternChunkEq ps cs

/-- Python `pat in s` substring containment on character lists. -/
def hasSubstrAux (pat : List Char) : List Char → Bool
  | [] => pat.isEmpty
  | c :: cs => patternChunkEq pat (c :: cs) || hasSubstrAux pat cs

/-- Python `pat in s` on strings. -/
def pyInStr (pat s : String) : Bool :=
  hasSubstrAux pat.toList s.toList

/-- The write-operation name patterns shared by the replay engine and
the ARS comparator. -/
def sideEffectPatterns : List String :=
  ["write", "delete", "update", "create", "send", "post", "put", "patch"]

/-- Python `s.lower()` on ASCII names, as a character-list map. -/
def pyLower (s : String) : String :=
  String.mk (s.toList.map Char.toLower)

/-- `ARSCalculator._is_side_effect_tool`. -/
def isSideEffectTool (tool_name : String) : Bool :=
  sideEffectPatterns.any (fun p => pyInStr p (pyLower tool_name))

/-- `ARSCalculator._extract_side_effects`: the
`{tool, inputs, outputs}` records of the side-effect tool calls. -/
def extractSideEffects (artifact : KurralArtifact) : List Json :=
  artifact.tool_calls.filterMap (fun tc =>
    if isSideEffectTool tc.tool_name then
      some (Json.obj [("tool", .str tc.tool_name), ("inputs", jsonOfOpt tc.inputs),
                      ("outputs", jsonOfOpt tc.outputs)])
    else none)

/-- `ARSCalculator._side_effect_divergence`. -/
def sideEffectDivergence (baseline candidate : KurralArtifact) : ℚ :=
  let baseline_effects := extractSideEffects baseline
  let candidate_effects := extractSideEffects candidate
  if Json.beqList baseline_effects candidate_effects then 1
  else if baseline_effects.isEmpty && candidate_effects.isEmpty then 1
  else if baseline_effects.isEmpty || candidate_effects.isEmpty then 0
  else sequenceMatcherRatio (Json.arr baseline_effects).dumps
    (Json.arr candidate_effects).dumps

/-- `ARSCalculator._error_delta`. -/
def errorDelta (baseline candidate : KurralArtifact) : ℚ :=
  let baseline_error := baseline.error
  let candidate_error := candidate.error
  if !(pyStrTruthy baseline_error) && !(pyStrTruthy candidate_error) then 1
  else if baseline_error == candidate_error then 1
  else if (pyStrTruthy baseline_error) != (pyStrTruthy candidate_error) then 0
  else if pyStrTruthy baseline_error && pyStrTruthy candidate_error then
    sequenceMatcherRatio (baseline_error.getD "") (candidate_error.getD "") * (1/2)
  else 0

/-- `ARSCalculator.calculate`: the weighted sum with weights
`output_similarity 0.40, tool_match_rate 0.30,
side_effect_divergence 0.20, error_delta 0.10`. -/
def arsCalculate (baseline candidate : KurralArtifact) : ℚ :=
  outputSimilarity baseline candidate * (2/5)
    + toolMatchRate baseline candidate * (3/10)
    + sideEffectDivergence baseline candidate * (1/5)
    + errorDelta baseline candidate * (1/10)

theorem outputSimilarity_self (A : KurralArtifact) : outputSimilarity A A = 1 := by
  simp [outputSimilarity]

theorem toolMatchRate_self (A : KurralArtifact) : toolMatchRate A A = 1 := by
  by_cases h : A.tool_calls.isEmpty <;> simp [toolMatchRate, h]

theorem sideEffectDivergence_self (A : KurralArtifact) :
    sideEffectDivergence A A = 1 := by
  simp [sideEffectDivergence, Json.beqList_refl]

theorem errorDelta_self (A : KurralArtifact) : errorDelta A A = 1 := by
  by_cases h : pyStrTruthy A.error <;> simp [errorDelta, h]

theorem arsCalculate_self (A : KurralArtifact) : arsCalculate A A = 1 := by
  rw [arsCalculate, outputSimilarity_self, toolMatchRate_self,
    sideEffectDivergence_self, errorDelta_self]
  norm_num

theorem toolMatchRate_symm (A B : KurralArtifact) :
    toolMatchRate A B = toolMatchRate B A := by
  unfold toolMatchRate
  by_cases hA : A.tool_calls.isEmpty <;> by_cases hB : B.tool_calls.isEmpty <;>
    simp only [hA, hB, Bool.true_and, Bool.false_and, Bool.and_true, Bool.and_false,
      Bool.true_or, Bool.or_true, Bool.false_or, Bool.or_false, if_true, if_false,
      Bool.false_eq_true, if_pos, ite_true, ite_false]
  by_cases hbc : A.tool_calls.map toolCallTuple = B.tool_calls.map toolCallTuple
  · simp [hbc]
  · have h1 : (A.tool_calls.map toolCallTuple == B.tool_calls.map toolCallTuple) = false := by
      simp [hbc]
    have h2 : (B.tool_calls.map toolCallTuple == A.tool_calls.map toolCallTuple) = false := by
      simp [Ne.symm hbc]
    rw [h1, h2]
    simp only [Bool.false_eq_true, if_false]
    by_cases hse : (A.tool_calls.map toolCallTuple).toFinset = ∅
        ∨ (B.tool_calls.map toolCallTuple).toFinset = ∅
    · have hse2 : (B.tool_calls.map toolCallTuple).toFinset = ∅
          ∨ (A.tool_calls.map toolCallTuple).toFinset = ∅ := hse.elim Or.inr Or.inl
      rw [if_pos hse, if_pos hse2]
    · have hse2 : ¬((B.tool_calls.map toolCallTuple).toFinset = ∅
          ∨ (A.tool_calls.map toolCallTuple).toFinset = ∅) :=
        fun h => hse (h.elim Or.inr Or.inl)
      simp only [hse, hse2, if_false]
      rw [Finset.inter_comm, Finset.union_comm]

/-- Claim C5 (amended): the ARS comparator is reflexive —
`ARS(A, A) = 1.0` for every artifact — and symmetric whenever the two
artifacts agree on canonical output serialization, extracted
side-effect records and error fields, so that the asymmetric
`SequenceMatcher.ratio` fallback is never consulted (the tool-match
component is symmetric outright). -/
theorem ars_reflexive_and_conditionally_symmetric (A B : KurralArtifact)
    (ho : dumpsObj A.outputs = dumpsObj B.outputs)
    (he : extractSideEffects A = extractSideEffects B)
    (herr : A.error = B.error) :
    (∀ C : KurralArtifact, arsCalculate C C = 1) ∧
    arsCalculate A B = arsCalculate B A := by
  refine ⟨arsCalculate_self, ?_⟩
  have h1 : outputSimilarity A B = 1 := by simp [outputSimilarity, ho]
  have h1b : outputSimilarity B A = 1 := by simp [outputSimilarity, ho]
  have h3 : sideEffectDivergence A B = 1 := by
    simp [sideEffectDivergence, he, Json.beqList_refl]
  have h3b : sideEffectDivergence B A = 1 := by
    simp [sideEffectDivergence, he, Json.beqList_refl]
  have h4 : errorDelta A B = 1 := by
    by_cases hbe : pyStrTruthy B.error = true <;> simp [errorDelta, herr, hbe]
  have h4b : errorDelta B A = 1 := by
    by_cases hbe : pyStrTruthy B.error = true <;> simp [errorDelta, herr, hbe]
  rw [arsCalculate, arsCalculate, h1, h1b, h3, h3b, h4, h4b, toolMatchRate_symm A B]

/-- An artifact whose single output value is the string `BRADY`. -/
def artifactBrady : KurralArtifact :=
  { artifactHi with kurral_id := "b1", outputs := [("t", Json.str "BRADY")] }

/-- An artifact whose single output value is the string `BYRD`. -/
def artifactByrd : KurralArtifact :=
  { artifactHi with kurral_id := "b2", outputs := [("t", Json.str "BYRD")] }

set_option maxRecDepth 100000 in
/-- Counterexample to claim C5 as stated: `SequenceMatcher.ratio` is
not symmetric, so neither is ARS.  On outputs of a single string field
holding `BRADY` against one holding `BYRD`, the matcher totals 12
matched characters one way and 11 the other (ratios 8/9 and 22/27),
giving different ARS values. -/
theorem ars_symmetry_counterexample :
    ¬ ∀ A B : KurralArtifact, arsCalculate A B = arsCalculate B A := by
  intro hc
  have hx := hc artifactBrady artifactByrd
  rw [show arsCalculate artifactBrady artifactByrd
        = 2 * ((12 : Nat) : ℚ) / ((27 : Nat) : ℚ) * (2/5) + 1 * (3/10)
          + 1 * (1/5) + 1 * (1/10) from rfl,
    show arsCalculate artifactByrd artifactBrady
        = 2 * ((11 : Nat) : ℚ) / ((27 : Nat) : ℚ) * (2/5) + 1 * (3/10)
          + 1 * (1/5) + 1 * (1/10) from rfl] at hx
  norm_num at hx

/-- A variant of the `BRADY` artifact with the same outputs, side
effects and error but a different (unreplayable) tool call. -/
def artifactBrady2 : KurralArtifact :=
  { artifactBrady with
    kurral_id := "b3"
    duration_ms := 99
    tool_calls := [toolCallMiss] }

/-- Closed witness for the amended C5 theorem: reflexivity at a
concrete artifact and symmetry across two artifacts differing in their
tool calls. -/
theorem ars_reflexive_and_conditionally_symmetric_witness :
    arsCalculate artifactBrady artifactBrady = 1 ∧
    arsCalculate artifactBrady artifactBrady2
      = arsCalculate artifactBrady2 artifactBrady := by
  obtain ⟨hrefl, hsym⟩ :=
    ars_reflexive_and_conditionally_symmetric artifactBrady artifactBrady2 rfl rfl rfl
  exact ⟨hrefl artifactBrady, hsym⟩

end Kurral
